import Mathlib

/-!
Shallow embedding of the bigdawgs-backend Express controllers
(`authController.ts`, `adminAuthController.ts`, `orderController.ts`,
`inventoryController.ts`, the admin router middleware and `utils/otp.ts`).

The database (Supabase) is modelled as an explicit record of tables, each a
list of rows, threaded through every handler.  Handlers are pure functions
from a database state, a request, and an environment record (clock,
randomness, external e-mail and payment outcomes) to a response and a new
database state.  PostgREST `.single()` / `.maybeSingle()` row-count
behaviour is modelled exactly (error on more than one row, `.single()` also
errors on zero rows); in this pure model the transport itself never fails.
-/

set_option linter.unusedVariables false

namespace BigDawgs

/-! ## JavaScript string primitives used by the controllers -/

/-- A character counted as whitespace by the JS `\s` class / `String.trim`
(the common ASCII subset used in the handlers). -/
def jsWs (c : Char) : Bool :=
  c == ' ' || c == '\t' || c == '\n' || c == '\r' || c == '\x0b' || c == '\x0c'

/-- Embedding of JS `String.prototype.trim`: strip leading and trailing
whitespace. -/
def jsTrim (s : String) : String :=
  String.mk (((s.data.dropWhile jsWs).reverse.dropWhile jsWs).reverse)

/-- Lower-case a single ASCII character (model of the character-wise action
of JS `toLowerCase` on the ASCII range). -/
def lowerChar (c : Char) : Char :=
  match c with
  | 'A' => 'a' | 'B' => 'b' | 'C' => 'c' | 'D' => 'd' | 'E' => 'e'
  | 'F' => 'f' | 'G' => 'g' | 'H' => 'h' | 'I' => 'i' | 'J' => 'j'
  | 'K' => 'k' | 'L' => 'l' | 'M' => 'm' | 'N' => 'n' | 'O' => 'o'
  | 'P' => 'p' | 'Q' => 'q' | 'R' => 'r' | 'S' => 's' | 'T' => 't'
  | 'U' => 'u' | 'V' => 'v' | 'W' => 'w' | 'X' => 'x' | 'Y' => 'y'
  | 'Z' => 'z' | other => other

/-- Embedding of JS `String.prototype.toLowerCase` (ASCII). -/
def jsToLower (s : String) : String :=
  String.mk (s.data.map lowerChar)

/-- Split a character list on a separator character (used to mirror the
structure of the e-mail regular expression). -/
def splitOnChar (sep : Char) : List Char → List (List Char)
  | [] => [[]]
  | c :: rest =>
    let r := splitOnChar sep rest
    if c == sep then [] :: r
    else
      match r with
      | [] => [[c]]
      | h :: t => (c :: h) :: t

/-- Embedding of the e-mail check `/^[^\s@]+@[^\s@]+\.[^\s@]+$/` from
`sendOTP`: exactly one `@`, a nonempty local part, no whitespace, and a dot
in the domain with at least one character on each side. -/
def validEmail (s : String) : Bool :=
  match splitOnChar '@' s.data with
  | [l, d] =>
    !l.isEmpty && l.all (fun c => !jsWs c) && d.all (fun c => !jsWs c) &&
      ((d.drop 1).dropLast.contains '.')
  | _ => false

/-- JS truthiness of an optional string field of a JSON body: present and
nonempty. -/
def truthy : Option String → Bool
  | none => false
  | some s => s != ""

/-! ## Decimal printing (JS `Number.prototype.toString` on small naturals) -/

/-- The decimal digit character for `d < 10`. -/
def digitChar (d : Nat) : Char :=
  match d with
  | 0 => '0' | 1 => '1' | 2 => '2' | 3 => '3' | 4 => '4'
  | 5 => '5' | 6 => '6' | 7 => '7' | 8 => '8' | _ => '9'

/-- Most-significant-first decimal digits, on structural fuel (`n ≤ fuel`
suffices for the fuel never to run out). -/
def natDigitsAux : Nat → Nat → List Char
  | _, 0 => [digitChar 0]
  | 0, n => [digitChar n]
  | fuel + 1, n =>
    if n < 10 then [digitChar n]
    else natDigitsAux fuel (n / 10) ++ [digitChar (n % 10)]

/-- Most-significant-first decimal digits of a natural number. -/
def natDigits (n : Nat) : List Char := natDigitsAux n n

/-- Embedding of JS `.toString()` on a small natural number. -/
def natRepr (n : Nat) : String := String.mk (natDigits n)

/-- Numeric value of a digit character. -/
def digitVal (c : Char) : Nat := c.toNat - 48

/-- Numeric value of a most-significant-first digit list. -/
def digitsVal (l : List Char) : Nat :=
  l.foldl (fun a c => 10 * a + digitVal c) 0

/-! ## `utils/otp.ts` and `crypto.randomInt` -/

/-- Model of Node `crypto.randomInt(lo, hi)`: a uniform draw from
`[lo, hi)`, with the entropy made an explicit argument. -/
def randomInt (lo hi entropy : Nat) : Nat := lo + entropy % (hi - lo)

/-- `generateOTP` from `utils/otp.ts`:
`crypto.randomInt(100000, 999999).toString()`.  The admin controller uses
the same expression inline. -/
def generateOTP (entropy : Nat) : String :=
  natRepr (randomInt 100000 999999 entropy)

/-- OTP validity window: 10 minutes, in milliseconds (`otpExpiresAt` /
`Date.now() + 10 * 60 * 1000`). -/
def otpWindowMs : Int := 600000

/-! ## Database rows and state -/

/-- A `users` row. -/
structure UserRow where
  id : String
  email : Option String
  phone : Option String
  full_name : Option String
deriving DecidableEq, Repr, Inhabited

/-- An `admin_users` row. -/
structure AdminRow where
  id : String
  email : String
  is_active : Bool
  admin_key : String
deriving DecidableEq, Repr, Inhabited

/-- An `otp_codes` row.  `user_id` carries a unique constraint in the
schema (the customer controller upserts `onConflict: "user_id"`). -/
structure OtpRow where
  id : Nat
  user_id : String
  code : String
  expires_at : Int
  used : Bool
deriving DecidableEq, Repr, Inhabited

/-- A `products` row (the columns the modelled queries touch). -/
structure Product where
  id : String
  slug : String
  name : String
  price : Int
  compare_price : Option Int
  stock_qty : Int
  is_featured : Bool
  is_solar : Bool
  is_active : Bool
  category_id : String
  created_at : Int
  brand : Option String
deriving DecidableEq, Repr, Inhabited

/-- A `categories` row. -/
structure Category where
  id : String
  name : String
  slug : String
deriving DecidableEq, Repr, Inhabited

/-- An `orders` row. -/
structure OrderRow where
  id : String
  user_id : String
  status : String
  total_amount : Int
  shipping_address : String
  razorpay_order_id : String
  razorpay_payment_id : String
deriving DecidableEq, Repr, Inhabited

/-- An `order_items` row. -/
structure OrderItemRow where
  order_id : String
  product_id : String
  quantity : Int
  price_at_purchase : Int
deriving DecidableEq, Repr, Inhabited

/-- A `payments` row. -/
structure PaymentRow where
  order_id : String
  amount : Int
  status : String
  razorpay_order_id : String
  razorpay_payment_id : String
  razorpay_signature : String
deriving DecidableEq, Repr, Inhabited

/-- The whole remote database.  The `next…` counters model the id
generation the database performs on insert. -/
structure DBState where
  users : List UserRow
  admin_users : List AdminRow
  otp_codes : List OtpRow
  products : List Product
  categories : List Category
  orders : List OrderRow
  order_items : List OrderItemRow
  payments : List PaymentRow
  nextUserId : Nat
  nextOtpId : Nat
  nextOrderId : Nat
deriving DecidableEq, Repr, Inhabited

/-- Database-generated id for a new `users` row. -/
def mkUserId (n : Nat) : String := "u" ++ natRepr n

/-- Database-generated id for a new `orders` row. -/
def mkOrderId (n : Nat) : String := "o" ++ natRepr n

/-! ## PostgREST row-count behaviour -/

/-- Outcome of a `.single()` / `.maybeSingle()` terminated query. -/
inductive QueryOne (α : Type) where
  | err
  | noRow
  | one (a : α)
deriving DecidableEq, Repr

/-- `.maybeSingle()`: `noRow` on zero rows, the row on one, an error on
more than one. -/
def maybeSingle {α : Type} : List α → QueryOne α
  | [] => .noRow
  | [a] => .one a
  | _ => .err

/-- `.single()`: errors on zero rows and on more than one. -/
def single {α : Type} : List α → QueryOne α
  | [a] => .one a
  | _ => .err

/-- `.order("expires_at", { ascending: false }).limit(1)` over a row list:
keep the row with the greatest `expires_at` (first such row on ties,
matching a stable descending sort). -/
def latestOtp (rows : List OtpRow) : Option OtpRow :=
  rows.foldl
    (fun acc r =>
      match acc with
      | none => some r
      | some a => if a.expires_at < r.expires_at then some r else some a)
    none

/-- `update({ used: true }).eq("id", rid)` on an `otp_codes` row list. -/
def markUsedList (rows : List OtpRow) (rid : Nat) : List OtpRow :=
  rows.map (fun r => if r.id == rid then { r with used := true } else r)

/-- `update({ used: true }).eq("id", rid)` on `otp_codes`. -/
def markUsed (s : DBState) (rid : Nat) : DBState :=
  { s with otp_codes := markUsedList s.otp_codes rid }

/-- `upsert({ user_id, code, expires_at, used: false }, { onConflict:
"user_id" })` on an `otp_codes` row list: update the row of that user if
one exists (the unique constraint on `user_id` keeps its id), insert a
row with the fresh id otherwise. -/
def upsertOtpList (rows : List OtpRow) (freshId : Nat) (uid code : String)
    (exp : Int) : List OtpRow :=
  if rows.any (fun r => r.user_id == uid) then
    rows.map (fun r =>
      if r.user_id == uid then
        { r with code := code, expires_at := exp, used := false }
      else r)
  else rows ++ [⟨freshId, uid, code, exp, false⟩]

/-- The upsert on the database state (the fresh-id counter advances). -/
def upsertOtp (s : DBState) (uid code : String) (exp : Int) : DBState :=
  { s with
    otp_codes := upsertOtpList s.otp_codes s.nextOtpId uid code exp,
    nextOtpId := s.nextOtpId + 1 }

/-- `delete().eq("user_id", uid)` followed by `insert({...})` on an
`otp_codes` row list, as `adminSendOTP` issues them. -/
def adminReplaceOtp (rows : List OtpRow) (freshId : Nat) (uid code : String)
    (exp : Int) : List OtpRow :=
  rows.filter (fun r => !(r.user_id == uid)) ++ [⟨freshId, uid, code, exp, false⟩]

/-! ## JWTs and request/response types -/

/-- The JWT secret (`process.env.JWT_SECRET`; the admin controller and the
admin middleware fall back to `"secret"` when unset — we model the secret
as configured and shared). -/
def JWT_SECRET : String := "JWT_SECRET"

/-- A signed JWT payload. -/
structure JwtPayload where
  userId : String
  email : Option String
  role : Option String
deriving DecidableEq, Repr, Inhabited

/-- A token produced by `jwt.sign(payload, secret)`. -/
structure Jwt where
  payload : JwtPayload
  secret : String
deriving DecidableEq, Repr, Inhabited

/-- Body of `POST /api/auth/send-otp`. -/
structure SendReq where
  email : Option String
  phone : Option String
  name : Option String
deriving DecidableEq, Repr, Inhabited

/-- Outcome of the Resend e-mail call in `sendOTP`: delivered, an error
object in the SDK result, or a thrown exception. -/
inductive EmailOutcome where
  | delivered
  | failed (err : String)
  | crashed (err : String)
deriving DecidableEq, Repr, Inhabited

/-- Per-request environment of `sendOTP`: entropy for `generateOTP`, the
clock, whether `RESEND_API_KEY` is configured, and the external e-mail
outcome. -/
structure SendEnv where
  rand : Nat
  now : Int
  apiKeyPresent : Bool
  emailOutcome : EmailOutcome
deriving DecidableEq, Repr, Inhabited

/-- Response of `sendOTP`. -/
inductive SendResp where
  | badReq (msg : String)
  | err500 (msg : String)
  | okSent (userId : String)
deriving DecidableEq, Repr, Inhabited

/-- HTTP status of a `sendOTP` response. -/
def SendResp.status : SendResp → Nat
  | .badReq _ => 400
  | .err500 _ => 500
  | .okSent _ => 200

/-- Body of `POST /api/auth/verify-otp`. -/
structure VerifyReq where
  email : Option String
  userId : Option String
  otp : Option String
deriving DecidableEq, Repr, Inhabited

/-- Response of `verifyOTP`. -/
inductive VerifyResp where
  | badReq (msg : String)
  | err500 (msg : String)
  | ok (token : Jwt) (user : UserRow)
deriving DecidableEq, Repr, Inhabited

/-- HTTP status of a `verifyOTP` response. -/
def VerifyResp.status : VerifyResp → Nat
  | .badReq _ => 400
  | .err500 _ => 500
  | .ok _ _ => 200

/-- The token a `verifyOTP` response hands to the client, if any. -/
def VerifyResp.token : VerifyResp → Option Jwt
  | .ok t _ => some t
  | _ => none

/-- Body of `POST /api/auth/admin-send-otp`. -/
structure ASendReq where
  email : Option String
deriving DecidableEq, Repr, Inhabited

/-- Per-request environment of `adminSendOTP`: entropy, clock, and whether
`transporter.sendMail` throws (with the thrown message). -/
structure ASendEnv where
  rand : Nat
  now : Int
  emailErr : Option String
deriving DecidableEq, Repr, Inhabited

/-- Response of `adminSendOTP`. -/
inductive ASendResp where
  | badReq (msg : String)
  | err500 (msg : String)
  | sent (userId : String) (message : String)
deriving DecidableEq, Repr, Inhabited

/-- HTTP status of an `adminSendOTP` response. -/
def ASendResp.status : ASendResp → Nat
  | .badReq _ => 400
  | .err500 _ => 500
  | .sent _ _ => 200

/-- Body of `POST /api/auth/admin-verify-otp`. -/
structure AVerifyReq where
  userId : Option String
  otp : Option String
deriving DecidableEq, Repr, Inhabited

/-- Response of `adminVerifyOTP`. -/
inductive AVerifyResp where
  | badReq (msg : String)
  | unauthorized (msg : String)
  | err500 (msg : String)
  | ok (token : Jwt) (email : String)
deriving DecidableEq, Repr, Inhabited

/-- HTTP status of an `adminVerifyOTP` response. -/
def AVerifyResp.status : AVerifyResp → Nat
  | .badReq _ => 400
  | .unauthorized _ => 401
  | .err500 _ => 500
  | .ok _ _ => 200

/-- The token an `adminVerifyOTP` response hands to the client, if any. -/
def AVerifyResp.token : AVerifyResp → Option Jwt
  | .ok t _ => some t
  | _ => none

/-! ## Shared OTP verification core

Both `verifyOTP` and `adminVerifyOTP` fetch the latest unused `otp_codes`
row for the user (`eq user_id, eq used false, order expires_at desc,
limit 1, maybeSingle`), then check expiry (`new Date(expires_at) <
new Date()`) and the trimmed code. -/

/-- Result of the three OTP checks. -/
inductive OtpCheck where
  | noRecord
  | expired
  | mismatch
  | accept (r0 : OtpRow)
deriving DecidableEq, Repr

/-- The OTP fetch-and-check sequence shared by both verify handlers. -/
def checkOtp (s : DBState) (now : Int) (uid otp : String) : OtpCheck :=
  match latestOtp (s.otp_codes.filter (fun r => r.user_id == uid && !r.used)) with
  | none => .noRecord
  | some r0 =>
    if r0.expires_at < now then .expired
    else if jsTrim r0.code != jsTrim otp then .mismatch
    else .accept r0

/-- `true` when `checkOtp` accepts. -/
def otpOk (s : DBState) (now : Int) (uid otp : String) : Bool :=
  match checkOtp s now uid otp with
  | .accept _ => true
  | _ => false

/-! ## `authController.ts` -/

/-- `sendOTP`: find-or-create the user
(`or(email.eq…, phone.eq…).maybeSingle()`, then `update`/`insert` with
`.select().single()`).  Returns the resolved user row together with the
new `users` table and id counter; an error carries the controller
response and the (possibly already updated) `users` table — on a
zero-row update the update itself was a no-op and `.single()` errors. -/
def findOrCreateUser (s : DBState) (req : SendReq) :
    Except (SendResp × List UserRow) (UserRow × List UserRow × Nat) :=
  let found := s.users.filter (fun u =>
    (truthy req.email && u.email == req.email) ||
      (truthy req.phone && u.phone == req.phone))
  match maybeSingle found with
  | .one u =>
    let newName := if truthy req.name then req.name else u.full_name
    let users1 := s.users.map (fun x =>
      if x.id == u.id then { x with full_name := newName } else x)
    match single (users1.filter (fun x => x.id == u.id)) with
    | .one uu => .ok (uu, users1, s.nextUserId)
    | _ => .error (.err500 "Failed to update user record", users1)
  | _ =>
    -- On a lookup error the code only destructures `data`, which is null,
    -- so it falls through to the insert branch exactly like "not found".
    let newU : UserRow :=
      ⟨mkUserId s.nextUserId,
        (if truthy req.email then req.email else none),
        (if truthy req.phone then req.phone else none),
        (if truthy req.name then req.name else none)⟩
    .ok (newU, s.users ++ [newU], s.nextUserId + 1)

/-- `POST /api/auth/send-otp` (`sendOTP` in `authController.ts`). -/
def sendOTP (s : DBState) (env : SendEnv) (req : SendReq) : SendResp × DBState :=
  if !truthy req.email && !truthy req.phone then
    (.badReq "Email or phone required", s)
  else if truthy req.email && !validEmail (req.email.getD "") then
    (.badReq "Invalid email format", s)
  else
    let otp := generateOTP env.rand
    let expires := env.now + otpWindowMs
    match findOrCreateUser s req with
    | .error (resp, users1) => (resp, { s with users := users1 })
    | .ok (user, users1, nextUid) =>
      let s1 := { s with users := users1, nextUserId := nextUid }
      let s2 := upsertOtp s1 user.id otp expires
      if truthy req.email then
        if !env.apiKeyPresent then
          -- Dev fallback: log the OTP and still succeed.
          (.okSent user.id, s2)
        else
          match env.emailOutcome with
          | .delivered => (.okSent user.id, s2)
          | .failed e => (.err500 ("Email delivery failed: " ++ e), s2)
          | .crashed e => (.err500 ("Email service error: " ++ e), s2)
      else (.okSent user.id, s2)

/-- User-id resolution step of `verifyOTP`: a truthy `userId` is taken as
is; otherwise the user is looked up by e-mail with `.maybeSingle()`. -/
def resolveUidCust (s : DBState) (req : VerifyReq) : Option String :=
  if truthy req.userId then req.userId
  else
    match maybeSingle (s.users.filter (fun u => u.email == some (req.email.getD ""))) with
    | .one u => some u.id
    | _ => none

/-- `POST /api/auth/verify-otp` (`verifyOTP` in `authController.ts`). -/
def verifyOTP (s : DBState) (now : Int) (req : VerifyReq) : VerifyResp × DBState :=
  if !truthy req.otp || (jsTrim (req.otp.getD "")).data.length != 6 then
    (.badReq "A 6-digit OTP is required", s)
  else if !truthy req.userId && !truthy req.email then
    (.badReq "userId or email is required", s)
  else
    match resolveUidCust s req with
    | none => (.badReq "User not found", s)
    | some uid =>
      match checkOtp s now uid (req.otp.getD "") with
      | .noRecord => (.badReq "No active OTP found. Please request a new one.", s)
      | .expired => (.badReq "OTP has expired. Please request a new one.", s)
      | .mismatch => (.badReq "Incorrect OTP. Please try again.", s)
      | .accept r0 =>
        -- Mark used (a failure here is logged and ignored), sign the JWT,
        -- then fetch the full user with `.single()`.
        let s1 := markUsed s r0.id
        let token : Jwt := ⟨⟨uid, none, none⟩, JWT_SECRET⟩
        match single (s1.users.filter (fun u => u.id == uid)) with
        | .one u => (.ok token u, s1)
        | _ => (.err500 "Verified but could not load user data", s1)

/-! ## `adminAuthController.ts` -/

/-- The vague anti-enumeration reply of `adminSendOTP`. -/
def vagueSent : ASendResp := .sent "invalid" "OTP sent if email is registered"

/-- `POST /api/auth/admin-send-otp` (`adminSendOTP`). -/
def adminSendOTP (s : DBState) (env : ASendEnv) (req : ASendReq) :
    ASendResp × DBState :=
  match req.email with
  | none => (.badReq "Email is required", s)
  | some e =>
    if jsTrim e == "" then (.badReq "Email is required", s)
    else
      let ne := jsTrim (jsToLower e)
      match maybeSingle (s.admin_users.filter (fun a => a.email == ne)) with
      | .err => (vagueSent, s)
      | .noRow => (vagueSent, s)
      | .one a =>
        if !a.is_active then (vagueSent, s)
        else
          let otp := generateOTP env.rand
          let expires := env.now + otpWindowMs
          let s2 := { s with
            otp_codes := adminReplaceOtp s.otp_codes s.nextOtpId a.id otp expires,
            nextOtpId := s.nextOtpId + 1 }
          match env.emailErr with
          | some msg => (.err500 ("Email delivery failed: " ++ msg), s2)
          | none => (.sent a.id "OTP sent", s2)

/-- `POST /api/auth/admin-verify-otp` (`adminVerifyOTP`). -/
def adminVerifyOTP (s : DBState) (now : Int) (req : AVerifyReq) :
    AVerifyResp × DBState :=
  if !truthy req.userId || !truthy req.otp then
    (.badReq "userId and otp are required", s)
  else if (jsTrim (req.otp.getD "")).data.length != 6 then
    (.badReq "OTP must be 6 digits", s)
  else if req.userId.getD "" == "invalid" then
    (.unauthorized "Invalid or expired OTP", s)
  else
    let uid := req.userId.getD ""
    match checkOtp s now uid (req.otp.getD "") with
    | .noRecord => (.badReq "No active OTP found. Please request a new one.", s)
    | .expired => (.badReq "OTP has expired. Please request a new one.", s)
    | .mismatch => (.badReq "Incorrect OTP. Please try again.", s)
    | .accept r0 =>
      let s1 := markUsed s r0.id
      match maybeSingle (s1.admin_users.filter (fun a => a.id == uid)) with
      | .one a =>
        (.ok ⟨⟨a.id, some a.email, some "admin"⟩, JWT_SECRET⟩ a.email, s1)
      | _ => (.unauthorized "Admin user not found", s1)

/-! ## `orderController.ts` -/

/-- One entry of `orderData.items`. -/
structure PayItem where
  id : String
  quantity : Int
  price : Int
deriving DecidableEq, Repr, Inhabited

/-- The `orderData` object of a verify-payment body. -/
structure OrderData where
  userId : String
  items : List PayItem
  totalAmount : Int
  shippingAddress : String
deriving DecidableEq, Repr, Inhabited

/-- Body of `POST /api/orders/verify-payment`. -/
structure PayReq where
  razorpay_order_id : String
  razorpay_payment_id : String
  razorpay_signature : String
  orderData : OrderData
deriving DecidableEq, Repr, Inhabited

/-- Response of `verifyPayment`. -/
inductive PayResp where
  | failed
  | ok (orderId : String)
deriving DecidableEq, Repr, Inhabited

/-- HTTP status of a `verifyPayment` response. -/
def PayResp.status : PayResp → Nat
  | .failed => 400
  | .ok _ => 200

/-- Error message of a failed `verifyPayment` response. -/
def PayResp.msg : PayResp → Option String
  | .failed => some "Payment verification failed"
  | .ok _ => none

/-- `POST /api/orders/verify-payment` (`verifyPayment` in
`orderController.ts`).  `hmac key msg` stands for the external
`crypto.createHmac("sha256", key).update(msg).digest("hex")` primitive.
The per-item stock update is modelled as the intended decrement (the
source passes an rpc builder object to `update`, which no claim
covers). -/
def verifyPayment (hmac : String → String → String) (keySecret : String)
    (s : DBState) (req : PayReq) : PayResp × DBState :=
  let body := req.razorpay_order_id ++ "|" ++ req.razorpay_payment_id
  let expectedSig := hmac keySecret body
  if expectedSig != req.razorpay_signature then (.failed, s)
  else
    let oid := mkOrderId s.nextOrderId
    let order : OrderRow :=
      ⟨oid, req.orderData.userId, "confirmed", req.orderData.totalAmount,
        req.orderData.shippingAddress, req.razorpay_order_id,
        req.razorpay_payment_id⟩
    let s1 := { s with orders := s.orders ++ [order],
                       nextOrderId := s.nextOrderId + 1 }
    let s2 := req.orderData.items.foldl
      (fun st it =>
        { st with
          order_items := st.order_items ++
            [⟨oid, it.id, it.quantity, it.price⟩],
          products := st.products.map (fun p =>
            if p.id == it.id then { p with stock_qty := p.stock_qty - it.quantity }
            else p) })
      s1
    let s3 := { s2 with payments := s2.payments ++
      [⟨oid, req.orderData.totalAmount, "success", req.razorpay_order_id,
        req.razorpay_payment_id, req.razorpay_signature⟩] }
    (.ok oid, s3)

/-! ## `inventoryController.ts` -/

/-- Query string of `GET /api/inventory` (`page` and `limit` carry their
destructuring defaults 1 and 20). -/
structure InvQuery where
  category : Option String
  sort : Option String
  min_price : Option Int
  max_price : Option Int
  page : Nat
  limit : Nat
deriving DecidableEq, Repr, Inhabited

/-- The lexicographic row order produced by
`.order("created_at", { ascending: false })` optionally followed by
`.order("price", …)` for `sort=price_asc` / `price_desc`. -/
def prodLe (sort : Option String) (a b : Product) : Bool :=
  if a.created_at == b.created_at then
    match sort with
    | some "price_asc" => a.price ≤ b.price
    | some "price_desc" => b.price ≤ a.price
    | _ => true
  else b.created_at < a.created_at

/-- `GET /api/inventory` (`getAllProducts`): filter `is_active`, the
optional price bounds, sort, then `.range(from, from + limit - 1)`.
The `categories.slug` filter applies to the embedded `categories`
resource only (no `!inner`), so it does not remove product rows and is
not membership-relevant here. -/
def getAllProducts (s : DBState) (q : InvQuery) : List Product :=
  let base := s.products.filter (fun p => p.is_active)
  let f1 := match q.min_price with
    | some m => base.filter (fun (p : Product) => m ≤ p.price)
    | none => base
  let f2 := match q.max_price with
    | some m => f1.filter (fun (p : Product) => p.price ≤ m)
    | none => f1
  let sorted := f2.insertionSort (fun a b => prodLe q.sort a b)
  (sorted.drop ((q.page - 1) * q.limit)).take q.limit

/-- Response of `getByCategory`. -/
inductive CatResp where
  | notFound
  | ok (data : List Product) (category : Category)
deriving DecidableEq, Repr, Inhabited

/-- `GET /api/inventory/:category` (`getByCategory`): `.single()` on the
category slug, 404 when that errors, else the active products of the
category ordered by `created_at` descending. -/
def getByCategory (s : DBState) (category : String) : CatResp :=
  match single (s.categories.filter (fun c => c.slug == category)) with
  | .one c =>
    .ok ((s.products.filter (fun p => p.is_active && p.category_id == c.id)).insertionSort
          (fun a b => prodLe none a b)) c
  | _ => .notFound

/-- Response of `getProductBySlug`. -/
inductive SlugResp where
  | notFound
  | ok (data : Product)
deriving DecidableEq, Repr, Inhabited

/-- `GET /api/inventory/:category/:slug` (`getProductBySlug`):
`.eq(slug).eq(is_active, true).single()`; an error or no row gives
404. -/
def getProductBySlug (s : DBState) (slug : String) : SlugResp :=
  match single (s.products.filter (fun p => p.slug == slug && p.is_active)) with
  | .one p => .ok p
  | _ => .notFound

/-- `GET /api/inventory/featured` (`getFeaturedProducts`):
`.eq(is_active).eq(is_featured).limit(8)`. -/
def getFeaturedProducts (s : DBState) : List Product :=
  (s.products.filter (fun p => p.is_active && p.is_featured)).take 8

/-! ## Admin router middleware (`adminRoutes.ts`) -/

/-- The token part of an `Authorization: Bearer …` header: either bytes
`jwt.verify` rejects, or a token produced by `jwt.sign` (possibly past
its `expiresIn`). -/
inductive BearerTok where
  | malformed (raw : String)
  | signed (t : Jwt) (expired : Bool)
deriving Repr, Inhabited

/-- The `Authorization` request header as the middleware sees it. -/
inductive AuthHeader where
  | missing
  | notBearer (raw : String)
  | bearer (tok : BearerTok)
deriving Repr, Inhabited

/-- `jwt.verify(token, secret)`: succeeds exactly on an unexpired token
signed with the same secret. -/
def jwtVerify (tok : BearerTok) (secret : String) : Option JwtPayload :=
  match tok with
  | .malformed _ => none
  | .signed t expired =>
    if t.secret == secret && !expired then some t.payload else none

/-- Outcome of an `/api/admin` route: a 401 from the middleware (the
handler never runs), or the handler output with the decoded admin payload
that was attached to the request. -/
inductive RouteOutcome (α : Type) where
  | unauthorized (msg : String)
  | handled (admin : JwtPayload) (out : α)
deriving Repr, Inhabited

/-- The `adminAuth` middleware composed with a route handler, as every
route registration `router.xxx(path, adminAuth, handler)` does. -/
def runAdminRoute {α : Type} (hd : AuthHeader) (secret : String)
    (handler : JwtPayload → α) : RouteOutcome α :=
  match hd with
  | .missing => .unauthorized "No admin token provided"
  | .notBearer _ => .unauthorized "No admin token provided"
  | .bearer tok =>
    match jwtVerify tok secret with
    | none => .unauthorized "Invalid or expired admin token"
    | some payload =>
      -- `if (payload.role !== "admin") throw` lands in the same catch.
      if payload.role != some "admin" then
        .unauthorized "Invalid or expired admin token"
      else .handled payload (handler payload)

/-! ## The application: one request dispatcher

`index.ts` wires the controllers into an Express app with no other shared
in-process state; a request is one of the modelled operations together
with its environment (clock, entropy, external outcomes). -/

/-- One incoming request with its environment. -/
inductive Op where
  | custSend (env : SendEnv) (req : SendReq)
  | custVerify (now : Int) (req : VerifyReq)
  | adminSend (env : ASendEnv) (req : ASendReq)
  | adminVerify (now : Int) (req : AVerifyReq)
  | payVerify (keySecret : String) (req : PayReq)
  | invList (q : InvQuery)
  | invCategory (category : String)
  | invSlug (slug : String)
  | invFeatured
deriving Inhabited

/-- A response of any of the modelled handlers. -/
inductive HResp where
  | sendR (r : SendResp)
  | verR (r : VerifyResp)
  | asendR (r : ASendResp)
  | averR (r : AVerifyResp)
  | payR (r : PayResp)
  | listR (r : List Product)
  | catR (r : CatResp)
  | slugR (r : SlugResp)
  | featR (r : List Product)
deriving DecidableEq, Repr, Inhabited

/-- Dispatch one request.  `hmac` is the external HMAC-SHA256 primitive
used by `verifyPayment`. -/
def handle (hmac : String → String → String) (s : DBState) (op : Op) :
    HResp × DBState :=
  match op with
  | .custSend env req => (.sendR (sendOTP s env req).1, (sendOTP s env req).2)
  | .custVerify now req => (.verR (verifyOTP s now req).1, (verifyOTP s now req).2)
  | .adminSend env req => (.asendR (adminSendOTP s env req).1, (adminSendOTP s env req).2)
  | .adminVerify now req =>
    (.averR (adminVerifyOTP s now req).1, (adminVerifyOTP s now req).2)
  | .payVerify k req =>
    (.payR (verifyPayment hmac k s req).1, (verifyPayment hmac k s req).2)
  | .invList q => (.listR (getAllProducts s q), s)
  | .invCategory c => (.catR (getByCategory s c), s)
  | .invSlug slug => (.slugR (getProductBySlug s slug), s)
  | .invFeatured => (.featR (getFeaturedProducts s), s)

/-- Whether a request is a customer send-otp. -/
def Op.isCustSend : Op → Bool
  | .custSend _ _ => true
  | _ => false

/-- Run a request list, keeping the final database state. -/
def runState (hmac : String → String → String) (s : DBState) : List Op → DBState
  | [] => s
  | op :: rest => runState hmac (handle hmac s op).2 rest

/-! ## Lemmas on decimal printing -/

theorem digitVal_digitChar (d : Nat) (hd : d < 10) : digitVal (digitChar d) = d := by
  interval_cases d <;> rfl

theorem digitChar_isDigit (d : Nat) (hd : d < 10) : (digitChar d).isDigit = true := by
  interval_cases d <;> rfl

theorem natDigitsAux_length :
    ∀ (k fuel n : Nat), n ≤ fuel → 10 ^ k ≤ n → n < 10 ^ (k + 1) →
      (natDigitsAux fuel n).length = k + 1 := by
  intro k
  induction k with
  | zero =>
    intro fuel n hfuel h1 h2
    norm_num at h1 h2
    match fuel, n with
    | _, 0 => omega
    | 0, n + 1 => omega
    | fuel + 1, n + 1 =>
      simp only [natDigitsAux, if_pos h2, List.length_singleton]
  | succ k ih =>
    intro fuel n hfuel h1 h2
    have h10 : 10 ≤ n :=
      le_trans (by calc (10 : Nat) = 10 ^ 1 := (pow_one 10).symm
                  _ ≤ 10 ^ (k + 1) := Nat.pow_le_pow_right (by omega) (by omega)) h1
    match fuel, n with
    | _, 0 => omega
    | 0, n + 1 => omega
    | fuel + 1, n + 1 =>
      have hnlt : ¬ (n + 1 < 10) := by omega
      simp only [natDigitsAux, if_neg hnlt, List.length_append, List.length_singleton]
      have hdivfuel : (n + 1) / 10 ≤ fuel := by
        have := Nat.div_lt_self (show 0 < n + 1 by omega) (show 1 < 10 by omega)
        omega
      have hdiv1 : 10 ^ k ≤ (n + 1) / 10 := by
        rw [Nat.le_div_iff_mul_le (by omega)]
        calc 10 ^ k * 10 = 10 ^ (k + 1) := by ring
        _ ≤ n + 1 := h1
      have hdiv2 : (n + 1) / 10 < 10 ^ (k + 1) := by
        rw [Nat.div_lt_iff_lt_mul (by omega)]
        calc n + 1 < 10 ^ (k + 1 + 1) := h2
        _ = 10 ^ (k + 1) * 10 := by ring
      rw [ih fuel ((n + 1) / 10) hdivfuel hdiv1 hdiv2]

theorem digitsVal_append_one (l : List Char) (c : Char) :
    digitsVal (l ++ [c]) = 10 * digitsVal l + digitVal c := by
  simp [digitsVal, List.foldl_append]

theorem digitsVal_natDigitsAux :
    ∀ (fuel n : Nat), n ≤ fuel → digitsVal (natDigitsAux fuel n) = n := by
  intro fuel
  induction fuel with
  | zero =>
    intro n hn
    have : n = 0 := by omega
    subst this
    rfl
  | succ fuel ih =>
    intro n hn
    match n with
    | 0 => rfl
    | n + 1 =>
      by_cases h : n + 1 < 10
      · simp only [natDigitsAux, if_pos h, digitsVal, List.foldl_cons, List.foldl_nil]
        rw [digitVal_digitChar _ h]
        omega
      · simp only [natDigitsAux, if_neg h, digitsVal_append_one]
        have hdivfuel : (n + 1) / 10 ≤ fuel := by
          have := Nat.div_lt_self (show 0 < n + 1 by omega) (show 1 < 10 by omega)
          omega
        rw [ih _ hdivfuel, digitVal_digitChar _ (Nat.mod_lt _ (by omega))]
        omega

theorem natDigitsAux_digits :
    ∀ (fuel n : Nat), n ≤ fuel → ∀ c ∈ natDigitsAux fuel n, c.isDigit = true := by
  intro fuel
  induction fuel with
  | zero =>
    intro n hn c hc
    have : n = 0 := by omega
    subst this
    simp only [natDigitsAux, List.mem_singleton] at hc
    subst hc
    rfl
  | succ fuel ih =>
    intro n hn c hc
    match n with
    | 0 =>
      simp only [natDigitsAux, List.mem_singleton] at hc
      subst hc
      rfl
    | n + 1 =>
      by_cases h : n + 1 < 10
      · simp only [natDigitsAux, if_pos h, List.mem_singleton] at hc
        subst hc
        exact digitChar_isDigit _ h
      · simp only [natDigitsAux, if_neg h, List.mem_append, List.mem_singleton] at hc
        rcases hc with hc | hc
        · have hdivfuel : (n + 1) / 10 ≤ fuel := by
            have := Nat.div_lt_self (show 0 < n + 1 by omega) (show 1 < 10 by omega)
            omega
          exact ih _ hdivfuel c hc
        · subst hc
          exact digitChar_isDigit _ (Nat.mod_lt _ (by omega))

theorem generateOTP_val (e : Nat) :
    100000 ≤ randomInt 100000 999999 e ∧ randomInt 100000 999999 e ≤ 999998 := by
  unfold randomInt
  have := Nat.mod_lt e (show 0 < 999999 - 100000 by omega)
  omega

theorem generateOTP_length (e : Nat) : (generateOTP e).data.length = 6 := by
  have hv := generateOTP_val e
  unfold generateOTP natRepr natDigits
  show (natDigitsAux _ _).length = 6
  exact natDigitsAux_length 5 _ _ le_rfl (by omega) (by omega)

theorem generateOTP_digits (e : Nat) :
    ∀ c ∈ (generateOTP e).data, c.isDigit = true := by
  unfold generateOTP natRepr natDigits
  exact natDigitsAux_digits _ _ le_rfl

theorem generateOTP_ne_999999 (e : Nat) : generateOTP e ≠ "999999" := by
  intro h
  have hv := generateOTP_val e
  unfold generateOTP natRepr natDigits at h
  have hdig : natDigitsAux (randomInt 100000 999999 e) (randomInt 100000 999999 e)
      = "999999".data := congrArg String.data h
  have hval := digitsVal_natDigitsAux (randomInt 100000 999999 e) _ le_rfl
  rw [hdig] at hval
  have : digitsVal "999999".data = 999999 := by decide
  omega

/-- Empty database, used by concrete instantiations. -/
def emptyDB : DBState := ⟨[], [], [], [], [], [], [], [], 0, 0, 0⟩

/-! ## C9 -/

/-- C9: every generated OTP is a string of exactly six decimal digits:
`crypto.randomInt(100000, 999999)` draws from `[100000, 999998]` (the
upper bound is exclusive, so `"999999"` is never produced), and the
customer verify-otp endpoint rejects with status 400 any submitted OTP
whose trimmed length is not 6. -/
theorem c9_otp_six_decimal_digits :
    (∀ e : Nat, 100000 ≤ randomInt 100000 999999 e ∧
      randomInt 100000 999999 e ≤ 999998) ∧
    (∀ e : Nat, (generateOTP e).data.length = 6 ∧
      (∀ c ∈ (generateOTP e).data, c.isDigit = true) ∧
      generateOTP e ≠ "999999") ∧
    (∀ (s : DBState) (now : Int) (req : VerifyReq),
      (jsTrim (req.otp.getD "")).data.length ≠ 6 →
      verifyOTP s now req = (.badReq "A 6-digit OTP is required", s)) := by
  refine ⟨generateOTP_val,
    fun e => ⟨generateOTP_length e, generateOTP_digits e, generateOTP_ne_999999 e⟩,
    fun s now req h => ?_⟩
  have hb : ((jsTrim (req.otp.getD "")).data.length != 6) = true := by
    simpa using h
  unfold verifyOTP
  rw [hb]
  simp

/-- Witness for C9 at entropy 0 and a three-character OTP. -/
theorem c9_witness :
    (100000 ≤ randomInt 100000 999999 0 ∧ randomInt 100000 999999 0 ≤ 999998) ∧
    ((generateOTP 0).data.length = 6 ∧
      (∀ c ∈ (generateOTP 0).data, c.isDigit = true) ∧ generateOTP 0 ≠ "999999") ∧
    verifyOTP emptyDB 0 ⟨none, none, some "123"⟩
      = (.badReq "A 6-digit OTP is required", emptyDB) :=
  ⟨c9_otp_six_decimal_digits.1 0, c9_otp_six_decimal_digits.2.1 0,
    c9_otp_six_decimal_digits.2.2 emptyDB 0 ⟨none, none, some "123"⟩ (by decide)⟩

/-! ## C2 -/

theorem foldl_items_orders (items : List PayItem) (oid : String) (s : DBState) :
    (items.foldl
      (fun st it =>
        { st with
          order_items := st.order_items ++ [⟨oid, it.id, it.quantity, it.price⟩],
          products := st.products.map (fun p =>
            if p.id == it.id then { p with stock_qty := p.stock_qty - it.quantity }
            else p) })
      s).orders = s.orders := by
  induction items generalizing s with
  | nil => rfl
  | cons it rest ih => exact ih _

/-- C2: a verify-payment request whose `razorpay_signature` differs from
the hex HMAC-SHA256 of `razorpay_order_id + "|" + razorpay_payment_id`
under the key secret gets a 400 "Payment verification failed" and leaves
the database untouched; a matching signature inserts an orders row with
status "confirmed" and the response reports success with the new order
id. -/
theorem c2_verify_payment :
    ∀ (hmac : String → String → String) (key : String) (s : DBState) (req : PayReq),
      (hmac key (req.razorpay_order_id ++ "|" ++ req.razorpay_payment_id)
          ≠ req.razorpay_signature →
        verifyPayment hmac key s req = (.failed, s) ∧
        (verifyPayment hmac key s req).1.status = 400 ∧
        (verifyPayment hmac key s req).1.msg = some "Payment verification failed") ∧
      (hmac key (req.razorpay_order_id ++ "|" ++ req.razorpay_payment_id)
          = req.razorpay_signature →
        (verifyPayment hmac key s req).1 = .ok (mkOrderId s.nextOrderId) ∧
        (⟨mkOrderId s.nextOrderId, req.orderData.userId, "confirmed",
            req.orderData.totalAmount, req.orderData.shippingAddress,
            req.razorpay_order_id, req.razorpay_payment_id⟩ : OrderRow)
          ∈ (verifyPayment hmac key s req).2.orders) := by
  intro hmac key s req
  constructor
  · intro hne
    have hb : (hmac key (req.razorpay_order_id ++ "|" ++ req.razorpay_payment_id)
        != req.razorpay_signature) = true := by simpa using hne
    simp [verifyPayment, hb, PayResp.status, PayResp.msg]
  · intro heq
    have hb : (hmac key (req.razorpay_order_id ++ "|" ++ req.razorpay_payment_id)
        != req.razorpay_signature) = false := by simpa using heq
    refine ⟨by simp [verifyPayment, hb], ?_⟩
    simp only [verifyPayment, hb, Bool.false_eq_true, if_false]
    rw [foldl_items_orders]
    simp

/-- Witness for C2: concrete request through both branches of the
signature check. -/
theorem c2_witness :
    verifyPayment (fun _ _ => "SIG") "k" emptyDB
        ⟨"ord", "pay", "BAD", ⟨"u0", [], 10, "addr"⟩⟩ = (.failed, emptyDB) ∧
    (verifyPayment (fun _ _ => "SIG") "k" emptyDB
        ⟨"ord", "pay", "SIG", ⟨"u0", [], 10, "addr"⟩⟩).1 = .ok "o0" :=
  ⟨((c2_verify_payment (fun _ _ => "SIG") "k" emptyDB
      ⟨"ord", "pay", "BAD", ⟨"u0", [], 10, "addr"⟩⟩).1 (by decide)).1,
   ((c2_verify_payment (fun _ _ => "SIG") "k" emptyDB
      ⟨"ord", "pay", "SIG", ⟨"u0", [], 10, "addr"⟩⟩).2 (by decide)).1⟩

/-! ## C5 -/

/-- C5: an `/api/admin` request whose Authorization header does not carry
a Bearer token signed with the JWT secret, unexpired, and bearing role
"admin" is answered 401 without the route handler running; otherwise the
handler runs with the decoded admin payload. -/
theorem c5_admin_middleware :
    ∀ {α : Type} (hd : AuthHeader) (secret : String) (handler : JwtPayload → α),
      (∀ p out, runAdminRoute hd secret handler = .handled p out →
        out = handler p ∧
        ∃ t, hd = .bearer (.signed t false) ∧ t.secret = secret ∧
          t.payload.role = some "admin" ∧ p = t.payload) ∧
      ((¬ ∃ t, hd = .bearer (.signed t false) ∧ t.secret = secret ∧
          t.payload.role = some "admin") →
        ∃ msg, runAdminRoute hd secret handler = .unauthorized msg) ∧
      (∀ t, hd = .bearer (.signed t false) → t.secret = secret →
        t.payload.role = some "admin" →
        runAdminRoute hd secret handler = .handled t.payload (handler t.payload)) := by
  intro α hd secret handler
  refine ⟨?_, ?_, ?_⟩
  · intro p out hrun
    match hd with
    | .missing => simp [runAdminRoute] at hrun
    | .notBearer raw => simp [runAdminRoute] at hrun
    | .bearer (.malformed raw) => simp [runAdminRoute, jwtVerify] at hrun
    | .bearer (.signed t expired) =>
      by_cases hsec : t.secret = secret
      · match expired with
        | true => simp [runAdminRoute, jwtVerify] at hrun
        | false =>
          by_cases hrole : t.payload.role = some "admin"
          · simp [runAdminRoute, jwtVerify, hsec, hrole] at hrun
            obtain ⟨hp, hout⟩ := hrun
            exact ⟨by rw [← hp, ← hout], t, rfl, hsec, hrole, hp.symm⟩
          · simp [runAdminRoute, jwtVerify, hsec, hrole] at hrun
      · simp [runAdminRoute, jwtVerify, hsec] at hrun
  · intro hno
    match hd with
    | .missing => exact ⟨_, rfl⟩
    | .notBearer raw => exact ⟨_, rfl⟩
    | .bearer (.malformed raw) => exact ⟨_, rfl⟩
    | .bearer (.signed t expired) =>
      by_cases hsec : t.secret = secret
      · match expired with
        | true =>
          exact ⟨"Invalid or expired admin token", by simp [runAdminRoute, jwtVerify]⟩
        | false =>
          by_cases hrole : t.payload.role = some "admin"
          · exact absurd ⟨t, rfl, hsec, hrole⟩ hno
          · exact ⟨"Invalid or expired admin token",
              by simp [runAdminRoute, jwtVerify, hsec, hrole]⟩
      · exact ⟨"Invalid or expired admin token",
          by simp [runAdminRoute, jwtVerify, hsec]⟩
  · intro t hhd hsec hrole
    subst hhd
    simp [runAdminRoute, jwtVerify, hsec, hrole]

/-- Witness for C5: a correctly signed admin token reaches the handler, a
missing header is answered 401. -/
theorem c5_witness :
    runAdminRoute (.bearer (.signed ⟨⟨"a1", some "a@b.co", some "admin"⟩, JWT_SECRET⟩ false))
        JWT_SECRET (fun p => p.userId)
      = .handled ⟨"a1", some "a@b.co", some "admin"⟩ "a1" ∧
    ∃ msg, runAdminRoute AuthHeader.missing JWT_SECRET (fun p => p.userId)
      = .unauthorized msg :=
  ⟨(c5_admin_middleware (.bearer (.signed ⟨⟨"a1", some "a@b.co", some "admin"⟩, JWT_SECRET⟩ false))
      JWT_SECRET (fun p => p.userId)).2.2 _ rfl rfl rfl,
   (c5_admin_middleware AuthHeader.missing JWT_SECRET (fun p => p.userId)).2.1
      (by rintro ⟨t, h, -, -⟩; cases h)⟩

/-! ## Query helper lemmas -/

theorem single_one_mem {α : Type} {l : List α} {a : α} (h : single l = .one a) :
    a ∈ l := by
  match l with
  | [] => simp [single] at h
  | [x] =>
    simp only [single, QueryOne.one.injEq] at h
    simp [h]
  | x :: y :: rest => simp [single] at h

theorem maybeSingle_one_mem {α : Type} {l : List α} {a : α}
    (h : maybeSingle l = .one a) : a ∈ l := by
  match l with
  | [] => simp [maybeSingle] at h
  | [x] =>
    simp only [maybeSingle, QueryOne.one.injEq] at h
    simp [h]
  | x :: y :: rest => simp [maybeSingle] at h

theorem latestOtp_mem :
    ∀ (l : List OtpRow) (acc : Option OtpRow) (r : OtpRow),
      l.foldl
        (fun acc r =>
          match acc with
          | none => some r
          | some a => if a.expires_at < r.expires_at then some r else some a)
        acc = some r →
      acc = some r ∨ r ∈ l := by
  intro l
  induction l with
  | nil => intro acc r h; exact Or.inl h
  | cons x xs ih =>
    intro acc r h
    rcases ih _ r h with hstep | hmem
    · match acc with
      | none =>
        simp only [Option.some.injEq] at hstep
        exact Or.inr (by simp [hstep])
      | some a =>
        simp only at hstep
        split at hstep
        · simp only [Option.some.injEq] at hstep
          exact Or.inr (by simp [hstep])
        · exact Or.inl hstep
    · exact Or.inr (List.mem_cons_of_mem _ hmem)

theorem latestOtp_some_mem {l : List OtpRow} {r : OtpRow}
    (h : latestOtp l = some r) : r ∈ l := by
  rcases latestOtp_mem l none r h with hacc | hmem
  · cases hacc
  · exact hmem

/-! ## C6 -/

/-- C6: the public catalog reads only ever return products with
`is_active = true`; an unknown category slug and an inactive or unknown
product slug give 404; the featured endpoint returns at most 8
products. -/
theorem c6_catalog_active_only :
    ∀ (s : DBState),
      (∀ (q : InvQuery), ∀ p ∈ getAllProducts s q, p.is_active = true) ∧
      (∀ (c : String) (data : List Product) (cat : Category),
        getByCategory s c = .ok data cat → ∀ p ∈ data, p.is_active = true) ∧
      (∀ (c : String), (∀ cat ∈ s.categories, cat.slug ≠ c) →
        getByCategory s c = .notFound) ∧
      (∀ (slug : String) (p : Product), getProductBySlug s slug = .ok p →
        p.is_active = true) ∧
      (∀ (slug : String),
        (∀ p ∈ s.products, ¬(p.slug = slug ∧ p.is_active = true)) →
        getProductBySlug s slug = .notFound) ∧
      (∀ p ∈ getFeaturedProducts s, p.is_active = true) ∧
      (getFeaturedProducts s).length ≤ 8 := by
  intro s
  refine ⟨?_, ?_, ?_, ?_, ?_, ?_, ?_⟩
  · intro q p hp
    unfold getAllProducts at hp
    have h2 := List.drop_subset _ _ (List.take_subset _ _ hp)
    have h3 := (List.perm_insertionSort
      (fun a b => prodLe q.sort a b = true) _).mem_iff.mp h2
    have h4 : p ∈ s.products.filter (fun p => p.is_active) := by
      match hmin : q.min_price, hmax : q.max_price with
      | none, none => simpa [hmin, hmax] using h3
      | none, some m =>
        rw [hmin, hmax] at h3
        exact (List.mem_filter.mp h3).1
      | some m, none =>
        rw [hmin, hmax] at h3
        exact (List.mem_filter.mp h3).1
      | some m, some m2 =>
        rw [hmin, hmax] at h3
        exact (List.mem_filter.mp (List.mem_filter.mp h3).1).1
    simpa using (List.mem_filter.mp h4).2
  · intro c data cat hok p hp
    unfold getByCategory at hok
    split at hok
    · rename_i c0 hc0
      simp only [CatResp.ok.injEq] at hok
      rw [← hok.1] at hp
      have h2 := (List.perm_insertionSort
        (fun a b => prodLe none a b = true) _).mem_iff.mp hp
      have h3 := (List.mem_filter.mp h2).2
      exact (Bool.and_eq_true .. |>.mp h3).1
    · cases hok
  · intro c hnone
    have hfil : s.categories.filter (fun cc => cc.slug == c) = [] := by
      rw [List.filter_eq_nil_iff]
      intro cat hcat
      simpa using hnone cat hcat
    unfold getByCategory
    rw [hfil]
    rfl
  · intro slug p hok
    unfold getProductBySlug at hok
    split at hok
    · rename_i p0 hp0
      simp only [SlugResp.ok.injEq] at hok
      subst hok
      have h2 := single_one_mem hp0
      have h3 := (List.mem_filter.mp h2).2
      exact (Bool.and_eq_true .. |>.mp h3).2
    · cases hok
  · intro slug hnone
    have hfil : s.products.filter (fun p => p.slug == slug && p.is_active) = [] := by
      rw [List.filter_eq_nil_iff]
      intro p hp
      have := hnone p hp
      simp only [Bool.and_eq_true, beq_iff_eq, not_and]
      intro h1
      intro h2
      exact this ⟨h1, h2⟩
    unfold getProductBySlug
    rw [hfil]
    rfl
  · intro p hp
    unfold getFeaturedProducts at hp
    have h2 := List.take_subset _ _ hp
    have h3 := (List.mem_filter.mp h2).2
    exact (Bool.and_eq_true .. |>.mp h3).1
  · exact List.length_take_le _ _

/-- Witness for C6 on a concrete two-product catalog (one inactive). -/
theorem c6_witness :
    (∀ p ∈ getAllProducts
        ⟨[], [], [],
          [⟨"p1", "sl1", "n1", 5, none, 1, true, false, true, "c1", 10, none⟩,
           ⟨"p2", "sl2", "n2", 7, none, 1, true, false, false, "c1", 11, none⟩],
          [], [], [], [], 0, 0, 0⟩
        ⟨none, none, none, none, 1, 20⟩, p.is_active = true) ∧
    getProductBySlug
        ⟨[], [], [],
          [⟨"p1", "sl1", "n1", 5, none, 1, true, false, true, "c1", 10, none⟩,
           ⟨"p2", "sl2", "n2", 7, none, 1, true, false, false, "c1", 11, none⟩],
          [], [], [], [], 0, 0, 0⟩ "sl2" = .notFound ∧
    (getFeaturedProducts
        ⟨[], [], [],
          [⟨"p1", "sl1", "n1", 5, none, 1, true, false, true, "c1", 10, none⟩,
           ⟨"p2", "sl2", "n2", 7, none, 1, true, false, false, "c1", 11, none⟩],
          [], [], [], [], 0, 0, 0⟩).length ≤ 8 :=
  ⟨(c6_catalog_active_only _).1 ⟨none, none, none, none, 1, 20⟩,
   (c6_catalog_active_only _).2.2.2.2.1 "sl2" (by decide),
   (c6_catalog_active_only _).2.2.2.2.2.2⟩

/-! ## C8 -/

/-- Counterexample to C8 as stated: an admin-verify-otp request with
`userId = "invalid"` but a 3-character OTP is rejected with status 400
("OTP must be 6 digits"), not 401 — the length check runs before the
`userId === "invalid"` guard. -/
theorem c8_counterexample :
    adminVerifyOTP emptyDB 0 ⟨some "invalid", some "123"⟩
      = (.badReq "OTP must be 6 digits", emptyDB) ∧
    (adminVerifyOTP emptyDB 0 ⟨some "invalid", some "123"⟩).1.status = 400 := by
  decide

/-- C8 (amended): an admin-send-otp request that passes input validation
and whose email does not resolve to an active `admin_users` row (unknown
email, inactive account, or a multi-row lookup error) gets HTTP 200 with
`userId = "invalid"` and the vague message, and the database is left
unchanged; and an admin-verify-otp request with `userId = "invalid"`
whose OTP passes the 6-digit format check is rejected with 401
independently of the database state, which is left unchanged. -/
theorem c8_admin_enumeration_paths :
    (∀ (s : DBState) (env : ASendEnv) (e : String), jsTrim e ≠ "" →
      (∀ a, maybeSingle (s.admin_users.filter
          (fun a => a.email == jsTrim (jsToLower e))) = .one a →
        a.is_active = false) →
      adminSendOTP s env ⟨some e⟩ = (vagueSent, s) ∧ vagueSent.status = 200) ∧
    (∀ (s : DBState) (now : Int) (otp : String), (jsTrim otp).data.length = 6 →
      adminVerifyOTP s now ⟨some "invalid", some otp⟩
        = (.unauthorized "Invalid or expired OTP", s)) := by
  constructor
  · intro s env e he hlook
    refine ⟨?_, rfl⟩
    have hb : (jsTrim e == "") = false := by simpa using he
    unfold adminSendOTP
    simp only [hb, Bool.false_eq_true, if_false]
    rcases hm : maybeSingle (s.admin_users.filter
        (fun a => a.email == jsTrim (jsToLower e))) with _ | _ | a
    · rw [hm]
    · rw [hm]
    · rw [hm]
      have hia := hlook a hm
      simp only [hia, Bool.not_false, if_true]
  · intro s now otp hlen
    have hne : otp ≠ "" := by
      intro h
      subst h
      rw [show jsTrim "" = "" from by decide] at hlen
      exact absurd hlen (by decide)
    have ht : truthy (some otp) = true := by
      simp [truthy]
      exact hne
    have hl : ((jsTrim otp).data.length != 6) = false := by simp [hlen]
    unfold adminVerifyOTP
    simp only [ht, hl, Bool.not_true, Bool.false_or, Bool.or_false,
      Bool.false_eq_true, if_false]
    have hinv : truthy (some "invalid") = true := by decide
    simp only [hinv, Bool.not_true, Bool.false_or]
    have hl2 : ((jsTrim otp).length != 6) = false := by
      have : (jsTrim otp).length = 6 := hlen
      simp [this]
    simp [hl2]

/-- Witness for C8 (amended): unknown admin email on the empty database,
and a well-formed OTP with the fake user id. -/
theorem c8_witness :
    (adminSendOTP emptyDB ⟨0, 0, none⟩ ⟨some "x@y.co"⟩ = (vagueSent, emptyDB) ∧
      vagueSent.status = 200) ∧
    adminVerifyOTP emptyDB 0 ⟨some "invalid", some "123456"⟩
      = (.unauthorized "Invalid or expired OTP", emptyDB) :=
  ⟨c8_admin_enumeration_paths.1 emptyDB ⟨0, 0, none⟩ "x@y.co" (by decide)
      (fun a h => QueryOne.noConfusion h),
   c8_admin_enumeration_paths.2 emptyDB 0 "123456" (by decide)⟩

/-! ## C1 -/

/-- The input-validation prefix of `verifyOTP`: a truthy six-character
(trimmed) OTP and at least one of `userId` / `email`. -/
def custValidates (req : VerifyReq) : Bool :=
  (truthy req.otp && (jsTrim (req.otp.getD "")).data.length == 6) &&
    (truthy req.userId || truthy req.email)

/-- The input-validation prefix of `adminVerifyOTP`, including the
`"invalid"` fake-id guard. -/
def adminValidates (req : AVerifyReq) : Bool :=
  ((truthy req.userId && truthy req.otp) &&
    (jsTrim (req.otp.getD "")).data.length == 6) &&
    req.userId.getD "" != "invalid"

/-- Whether the post-verification `users` fetch (`.single()`) of
`verifyOTP` succeeds: exactly one `users` row with the resolved id. -/
def usersSingleOk (s : DBState) (uid : String) : Bool :=
  match single (s.users.filter (fun u => u.id == uid)) with
  | .one _ => true
  | _ => false

/-- Whether the post-verification `admin_users` fetch (`.maybeSingle()`)
of `adminVerifyOTP` finds the admin. -/
def adminFoundOk (s : DBState) (uid : String) : Bool :=
  match maybeSingle (s.admin_users.filter (fun a => a.id == uid)) with
  | .one _ => true
  | _ => false

theorem verifyOTP_resolved (s : DBState) (now : Int) (req : VerifyReq)
    (uid : String) (hv : custValidates req = true)
    (hr : resolveUidCust s req = some uid) :
    verifyOTP s now req =
      match checkOtp s now uid (req.otp.getD "") with
      | .noRecord => (.badReq "No active OTP found. Please request a new one.", s)
      | .expired => (.badReq "OTP has expired. Please request a new one.", s)
      | .mismatch => (.badReq "Incorrect OTP. Please try again.", s)
      | .accept r0 =>
        match single ((markUsed s r0.id).users.filter (fun u => u.id == uid)) with
        | .one u => (.ok ⟨⟨uid, none, none⟩, JWT_SECRET⟩ u, markUsed s r0.id)
        | _ => (.err500 "Verified but could not load user data", markUsed s r0.id) := by
  unfold custValidates at hv
  obtain ⟨hv1, hv2⟩ := Bool.and_eq_true .. |>.mp hv
  obtain ⟨hot, hlen⟩ := Bool.and_eq_true .. |>.mp hv1
  have hlen6 : (jsTrim (req.otp.getD "")).data.length = 6 := by simpa using hlen
  have hc1 : (!truthy req.otp || (jsTrim (req.otp.getD "")).data.length != 6) = false := by
    simp [hot, hlen6]
  have hc2 : (!truthy req.userId && !truthy req.email) = false := by
    rcases Bool.or_eq_true .. |>.mp hv2 with h | h <;> simp [h]
  unfold verifyOTP
  rw [hc1, hc2]
  simp only [Bool.false_eq_true, if_false, hr]

theorem adminVerifyOTP_resolved (s : DBState) (now : Int) (req : AVerifyReq)
    (uid : String) (hv : adminValidates req = true) (hu : req.userId = some uid) :
    adminVerifyOTP s now req =
      match checkOtp s now uid (req.otp.getD "") with
      | .noRecord => (.badReq "No active OTP found. Please request a new one.", s)
      | .expired => (.badReq "OTP has expired. Please request a new one.", s)
      | .mismatch => (.badReq "Incorrect OTP. Please try again.", s)
      | .accept r0 =>
        match maybeSingle ((markUsed s r0.id).admin_users.filter (fun a => a.id == uid)) with
        | .one a => (.ok ⟨⟨a.id, some a.email, some "admin"⟩, JWT_SECRET⟩ a.email,
            markUsed s r0.id)
        | _ => (.unauthorized "Admin user not found", markUsed s r0.id) := by
  unfold adminValidates at hv
  obtain ⟨hv1, hinv⟩ := Bool.and_eq_true .. |>.mp hv
  obtain ⟨hv2, hlen⟩ := Bool.and_eq_true .. |>.mp hv1
  obtain ⟨huid, hot⟩ := Bool.and_eq_true .. |>.mp hv2
  have hlen6 : (jsTrim (req.otp.getD "")).data.length = 6 := by simpa using hlen
  have hc1 : (!truthy req.userId || !truthy req.otp) = false := by simp [huid, hot]
  have hc2 : ((jsTrim (req.otp.getD "")).data.length != 6) = false := by simp [hlen6]
  have hc3 : (req.userId.getD "" == "invalid") = false := by simpa using hinv
  unfold adminVerifyOTP
  rw [hc1, hc2, hc3]
  simp only [Bool.false_eq_true, if_false]
  rw [hu]
  simp only [Option.getD_some]

/-- The state `c1S`: an unused, unexpired OTP row for user id `"u1"`, but
no `users` (and no `admin_users`) row with that id. -/
def c1S : DBState :=
  ⟨[], [], [⟨0, "u1", "111111", 1000, false⟩], [], [], [], [], [], 0, 1, 0⟩

/-- Counterexample to C1 as stated: the request passes validation, the
user id resolves, and the latest unused OTP row exists, is unexpired and
matches — yet the customer handler answers 500 (the post-verification
`users` fetch fails) with no token: neither success nor status 400. -/
theorem c1_counterexample :
    custValidates ⟨none, some "u1", some "111111"⟩ = true ∧
    resolveUidCust c1S ⟨none, some "u1", some "111111"⟩ = some "u1" ∧
    otpOk c1S 0 "u1" "111111" = true ∧
    (verifyOTP c1S 0 ⟨none, some "u1", some "111111"⟩).1.status = 500 ∧
    (verifyOTP c1S 0 ⟨none, some "u1", some "111111"⟩).1.token = none := by
  decide

/-- C1 (amended): for an OTP verification request that passes input
validation and resolves a user id, the handler reports success with a
signed JWT iff the latest unused OTP row exists, is not expired, its
trimmed code matches, AND the follow-up user fetch succeeds; when the OTP
conditions fail the response is 400 with no token; when the OTP conditions
hold but the user fetch fails, the customer handler answers 500 and the
admin handler 401, both with no token. -/
theorem c1_verify_outcome :
    (∀ (s : DBState) (now : Int) (req : VerifyReq) (uid : String),
      custValidates req = true → resolveUidCust s req = some uid →
      ((otpOk s now uid (req.otp.getD "") = true ∧ usersSingleOk s uid = true) →
        (verifyOTP s now req).1.status = 200 ∧
        (verifyOTP s now req).1.token = some ⟨⟨uid, none, none⟩, JWT_SECRET⟩) ∧
      (otpOk s now uid (req.otp.getD "") = false →
        (verifyOTP s now req).1.status = 400 ∧ (verifyOTP s now req).1.token = none) ∧
      ((otpOk s now uid (req.otp.getD "") = true ∧ usersSingleOk s uid = false) →
        (verifyOTP s now req).1.status = 500 ∧ (verifyOTP s now req).1.token = none)) ∧
    (∀ (s : DBState) (now : Int) (req : AVerifyReq) (uid : String),
      adminValidates req = true → req.userId = some uid →
      ((otpOk s now uid (req.otp.getD "") = true ∧ adminFoundOk s uid = true) →
        (adminVerifyOTP s now req).1.status = 200 ∧
        ((adminVerifyOTP s now req).1.token).isSome = true) ∧
      (otpOk s now uid (req.otp.getD "") = false →
        (adminVerifyOTP s now req).1.status = 400 ∧
        (adminVerifyOTP s now req).1.token = none) ∧
      ((otpOk s now uid (req.otp.getD "") = true ∧ adminFoundOk s uid = false) →
        (adminVerifyOTP s now req).1.status = 401 ∧
        (adminVerifyOTP s now req).1.token = none)) := by
  constructor
  · intro s now req uid hv hr
    rw [verifyOTP_resolved s now req uid hv hr]
    refine ⟨?_, ?_, ?_⟩
    · rintro ⟨hok, hsing⟩
      unfold otpOk at hok
      rcases hc : checkOtp s now uid (req.otp.getD "") with _ | _ | _ | r0
      · rw [hc] at hok; simp at hok
      · rw [hc] at hok; simp at hok
      · rw [hc] at hok; simp at hok
      unfold usersSingleOk at hsing
      rcases hs : single (s.users.filter (fun u => u.id == uid)) with _ | _ | u
      · rw [hs] at hsing; simp at hsing
      · rw [hs] at hsing; simp at hsing
      have : single ((markUsed s r0.id).users.filter (fun u => u.id == uid))
          = .one u := hs
      simp [this, VerifyResp.status, VerifyResp.token]
    · intro hok
      unfold otpOk at hok
      rcases hc : checkOtp s now uid (req.otp.getD "") with _ | _ | _ | r0 <;>
        rw [hc] at hok
      · exact ⟨rfl, rfl⟩
      · exact ⟨rfl, rfl⟩
      · exact ⟨rfl, rfl⟩
      · simp at hok
    · rintro ⟨hok, hsing⟩
      unfold otpOk at hok
      rcases hc : checkOtp s now uid (req.otp.getD "") with _ | _ | _ | r0
      · rw [hc] at hok; simp at hok
      · rw [hc] at hok; simp at hok
      · rw [hc] at hok; simp at hok
      unfold usersSingleOk at hsing
      rcases hs : single (s.users.filter (fun u => u.id == uid)) with _ | _ | u
      · have : single ((markUsed s r0.id).users.filter (fun u => u.id == uid))
            = QueryOne.err := hs
        simp [this, VerifyResp.status, VerifyResp.token]
      · have : single ((markUsed s r0.id).users.filter (fun u => u.id == uid))
            = QueryOne.noRow := hs
        simp [this, VerifyResp.status, VerifyResp.token]
      · rw [hs] at hsing
        simp at hsing
  · intro s now req uid hv hu
    rw [adminVerifyOTP_resolved s now req uid hv hu]
    refine ⟨?_, ?_, ?_⟩
    · rintro ⟨hok, hsing⟩
      unfold otpOk at hok
      rcases hc : checkOtp s now uid (req.otp.getD "") with _ | _ | _ | r0
      · rw [hc] at hok; simp at hok
      · rw [hc] at hok; simp at hok
      · rw [hc] at hok; simp at hok
      unfold adminFoundOk at hsing
      rcases hs : maybeSingle (s.admin_users.filter (fun a => a.id == uid))
          with _ | _ | a
      · rw [hs] at hsing; simp at hsing
      · rw [hs] at hsing; simp at hsing
      have : maybeSingle ((markUsed s r0.id).admin_users.filter (fun a => a.id == uid))
          = .one a := hs
      simp [this, AVerifyResp.status, AVerifyResp.token]
    · intro hok
      unfold otpOk at hok
      rcases hc : checkOtp s now uid (req.otp.getD "") with _ | _ | _ | r0 <;>
        rw [hc] at hok
      · exact ⟨rfl, rfl⟩
      · exact ⟨rfl, rfl⟩
      · exact ⟨rfl, rfl⟩
      · simp at hok
    · rintro ⟨hok, hsing⟩
      unfold otpOk at hok
      rcases hc : checkOtp s now uid (req.otp.getD "") with _ | _ | _ | r0
      · rw [hc] at hok; simp at hok
      · rw [hc] at hok; simp at hok
      · rw [hc] at hok; simp at hok
      unfold adminFoundOk at hsing
      rcases hs : maybeSingle (s.admin_users.filter (fun a => a.id == uid))
          with _ | _ | a
      · have : maybeSingle ((markUsed s r0.id).admin_users.filter (fun a => a.id == uid))
            = QueryOne.err := hs
        simp [this, AVerifyResp.status, AVerifyResp.token]
      · have : maybeSingle ((markUsed s r0.id).admin_users.filter (fun a => a.id == uid))
            = QueryOne.noRow := hs
        simp [this, AVerifyResp.status, AVerifyResp.token]
      · rw [hs] at hsing
        simp at hsing

/-- Witness for C1 (amended): a complete success and a wrong-code 400 on
a concrete database. -/
theorem c1_witness :
    ((verifyOTP ⟨[⟨"u1", some "a@b.co", none, none⟩], [],
        [⟨0, "u1", "111111", 1000, false⟩], [], [], [], [], [], 1, 1, 0⟩
        0 ⟨none, some "u1", some "111111"⟩).1.status = 200 ∧
      (verifyOTP ⟨[⟨"u1", some "a@b.co", none, none⟩], [],
        [⟨0, "u1", "111111", 1000, false⟩], [], [], [], [], [], 1, 1, 0⟩
        0 ⟨none, some "u1", some "111111"⟩).1.token
        = some ⟨⟨"u1", none, none⟩, JWT_SECRET⟩) ∧
    ((verifyOTP ⟨[⟨"u1", some "a@b.co", none, none⟩], [],
        [⟨0, "u1", "111111", 1000, false⟩], [], [], [], [], [], 1, 1, 0⟩
        0 ⟨none, some "u1", some "222222"⟩).1.status = 400 ∧
      (verifyOTP ⟨[⟨"u1", some "a@b.co", none, none⟩], [],
        [⟨0, "u1", "111111", 1000, false⟩], [], [], [], [], [], 1, 1, 0⟩
        0 ⟨none, some "u1", some "222222"⟩).1.token = none) :=
  ⟨(c1_verify_outcome.1 _ 0 ⟨none, some "u1", some "111111"⟩ "u1"
      (by decide) (by decide)).1 ⟨by decide, by decide⟩,
   (c1_verify_outcome.1 _ 0 ⟨none, some "u1", some "222222"⟩ "u1"
      (by decide) (by decide)).2.1 (by decide)⟩

/-! ## How each handler changes `otp_codes` -/

theorem foldl_items_otp (items : List PayItem) (oid : String) (s : DBState) :
    ((items.foldl
      (fun st it =>
        { st with
          order_items := st.order_items ++ [⟨oid, it.id, it.quantity, it.price⟩],
          products := st.products.map (fun p =>
            if p.id == it.id then { p with stock_qty := p.stock_qty - it.quantity }
            else p) })
      s).otp_codes = s.otp_codes) ∧
    ((items.foldl
      (fun st it =>
        { st with
          order_items := st.order_items ++ [⟨oid, it.id, it.quantity, it.price⟩],
          products := st.products.map (fun p =>
            if p.id == it.id then { p with stock_qty := p.stock_qty - it.quantity }
            else p) })
      s).nextOtpId = s.nextOtpId) := by
  induction items generalizing s with
  | nil => exact ⟨rfl, rfl⟩
  | cons it rest ih => exact ih _

theorem sendOTP_otpState (s : DBState) (env : SendEnv) (req : SendReq) :
    ((sendOTP s env req).2.otp_codes = s.otp_codes ∧
      (sendOTP s env req).2.nextOtpId = s.nextOtpId) ∨
    (∃ uid, (sendOTP s env req).2.otp_codes
        = upsertOtpList s.otp_codes s.nextOtpId uid (generateOTP env.rand)
            (env.now + otpWindowMs) ∧
      (sendOTP s env req).2.nextOtpId = s.nextOtpId + 1) := by
  unfold sendOTP
  repeat' split
  all_goals first
    | exact Or.inl ⟨rfl, rfl⟩
    | exact Or.inr ⟨_, rfl, rfl⟩

theorem adminSendOTP_otpState (s : DBState) (env : ASendEnv) (req : ASendReq) :
    ((adminSendOTP s env req).2.otp_codes = s.otp_codes ∧
      (adminSendOTP s env req).2.nextOtpId = s.nextOtpId) ∨
    (∃ uid, (adminSendOTP s env req).2.otp_codes
        = adminReplaceOtp s.otp_codes s.nextOtpId uid (generateOTP env.rand)
            (env.now + otpWindowMs) ∧
      (adminSendOTP s env req).2.nextOtpId = s.nextOtpId + 1) := by
  unfold adminSendOTP
  dsimp only
  repeat' split
  all_goals first
    | exact Or.inl ⟨rfl, rfl⟩
    | exact Or.inr ⟨_, rfl, rfl⟩

theorem verifyOTP_otpState (s : DBState) (now : Int) (req : VerifyReq) :
    ((verifyOTP s now req).2.otp_codes = s.otp_codes ∧
      (verifyOTP s now req).2.nextOtpId = s.nextOtpId) ∨
    (∃ rid, (verifyOTP s now req).2.otp_codes = markUsedList s.otp_codes rid ∧
      (verifyOTP s now req).2.nextOtpId = s.nextOtpId) := by
  unfold verifyOTP
  dsimp only
  repeat' split
  all_goals first
    | exact Or.inl ⟨rfl, rfl⟩
    | exact Or.inr ⟨_, rfl, rfl⟩

theorem adminVerifyOTP_otpState (s : DBState) (now : Int) (req : AVerifyReq) :
    ((adminVerifyOTP s now req).2.otp_codes = s.otp_codes ∧
      (adminVerifyOTP s now req).2.nextOtpId = s.nextOtpId) ∨
    (∃ rid, (adminVerifyOTP s now req).2.otp_codes = markUsedList s.otp_codes rid ∧
      (adminVerifyOTP s now req).2.nextOtpId = s.nextOtpId) := by
  unfold adminVerifyOTP
  dsimp only
  repeat' split
  all_goals first
    | exact Or.inl ⟨rfl, rfl⟩
    | exact Or.inr ⟨_, rfl, rfl⟩

theorem verifyPayment_otpState (hmac : String → String → String) (k : String)
    (s : DBState) (req : PayReq) :
    (verifyPayment hmac k s req).2.otp_codes = s.otp_codes ∧
    (verifyPayment hmac k s req).2.nextOtpId = s.nextOtpId := by
  unfold verifyPayment
  dsimp only
  split
  · exact ⟨rfl, rfl⟩
  · exact ⟨(foldl_items_otp _ _ _).1, (foldl_items_otp _ _ _).2⟩

/-- Every way a request can change the `otp_codes` table: leave it alone,
mark a row used, replace a user's rows with a fresh one (admin send), or
upsert keyed on `user_id` (customer send — the only operation that can
write `used := false` into an existing row). -/
theorem handle_otpState (hmac : String → String → String) (s : DBState) (op : Op) :
    ((handle hmac s op).2.otp_codes = s.otp_codes ∧
      (handle hmac s op).2.nextOtpId = s.nextOtpId) ∨
    (∃ rid, (handle hmac s op).2.otp_codes = markUsedList s.otp_codes rid ∧
      (handle hmac s op).2.nextOtpId = s.nextOtpId) ∨
    (∃ uid code exp, (handle hmac s op).2.otp_codes
        = adminReplaceOtp s.otp_codes s.nextOtpId uid code exp ∧
      (handle hmac s op).2.nextOtpId = s.nextOtpId + 1) ∨
    (op.isCustSend = true ∧ ∃ uid code exp, (handle hmac s op).2.otp_codes
        = upsertOtpList s.otp_codes s.nextOtpId uid code exp ∧
      (handle hmac s op).2.nextOtpId = s.nextOtpId + 1) := by
  cases op with
  | custSend env req =>
    rcases sendOTP_otpState s env req with ⟨h1, h2⟩ | ⟨uid, h1, h2⟩
    · exact Or.inl ⟨h1, h2⟩
    · exact Or.inr (Or.inr (Or.inr ⟨rfl, uid, _, _, h1, h2⟩))
  | custVerify now req =>
    rcases verifyOTP_otpState s now req with ⟨h1, h2⟩ | ⟨rid, h1, h2⟩
    · exact Or.inl ⟨h1, h2⟩
    · exact Or.inr (Or.inl ⟨rid, h1, h2⟩)
  | adminSend env req =>
    rcases adminSendOTP_otpState s env req with ⟨h1, h2⟩ | ⟨uid, h1, h2⟩
    · exact Or.inl ⟨h1, h2⟩
    · exact Or.inr (Or.inr (Or.inl ⟨uid, _, _, h1, h2⟩))
  | adminVerify now req =>
    rcases adminVerifyOTP_otpState s now req with ⟨h1, h2⟩ | ⟨rid, h1, h2⟩
    · exact Or.inl ⟨h1, h2⟩
    · exact Or.inr (Or.inl ⟨rid, h1, h2⟩)
  | payVerify k req =>
    exact Or.inl ⟨(verifyPayment_otpState hmac k s req).1,
      (verifyPayment_otpState hmac k s req).2⟩
  | invList q => exact Or.inl ⟨rfl, rfl⟩
  | invCategory c => exact Or.inl ⟨rfl, rfl⟩
  | invSlug slug => exact Or.inl ⟨rfl, rfl⟩
  | invFeatured => exact Or.inl ⟨rfl, rfl⟩

/-! ## C4 -/

/-- At most one `otp_codes` row per user: the schema-level unique
constraint behind `onConflict: "user_id"`. -/
def uniqOtpList (l : List OtpRow) : Prop :=
  l.Pairwise (fun a b => a.user_id ≠ b.user_id)

theorem uniqOtpList_markUsed (l : List OtpRow) (rid : Nat) (h : uniqOtpList l) :
    uniqOtpList (markUsedList l rid) := by
  unfold markUsedList uniqOtpList
  rw [List.pairwise_map]
  refine h.imp ?_
  intro a b hab
  by_cases ha : a.id == rid <;> by_cases hb : b.id == rid <;>
    simp [ha, hb] <;> exact hab

theorem uniqOtpList_upsert (l : List OtpRow) (freshId : Nat) (uid code : String)
    (exp : Int) (h : uniqOtpList l) :
    uniqOtpList (upsertOtpList l freshId uid code exp) := by
  unfold upsertOtpList
  split
  · unfold uniqOtpList
    rw [List.pairwise_map]
    refine h.imp ?_
    intro a b hab
    by_cases ha : a.user_id == uid <;> by_cases hb : b.user_id == uid <;>
      simp [ha, hb] <;> exact hab
  · rename_i hany
    unfold uniqOtpList
    rw [List.pairwise_append]
    refine ⟨h, List.pairwise_singleton _ _, ?_⟩
    intro a ha b hb
    rw [List.mem_singleton] at hb
    subst hb
    intro hcontra
    apply hany
    rw [List.any_eq_true]
    exact ⟨a, ha, by simp [hcontra]⟩

theorem uniqOtpList_adminReplace (l : List OtpRow) (freshId : Nat)
    (uid code : String) (exp : Int) (h : uniqOtpList l) :
    uniqOtpList (adminReplaceOtp l freshId uid code exp) := by
  unfold adminReplaceOtp uniqOtpList
  rw [List.pairwise_append]
  refine ⟨h.sublist (List.filter_sublist _), List.pairwise_singleton _ _, ?_⟩
  intro a ha b hb
  rw [List.mem_singleton] at hb
  subst hb
  have := (List.mem_filter.mp ha).2
  intro hcontra
  rw [hcontra] at this
  simp at this

theorem uniqOtpList_filter_le_one (l : List OtpRow) (uid : String)
    (p : OtpRow → Bool) (hp : ∀ r, p r = true → r.user_id = uid)
    (h : uniqOtpList l) : (l.filter p).length ≤ 1 := by
  induction l with
  | nil => simp
  | cons x xs ih =>
    rcases List.pairwise_cons.mp h with ⟨hx, hxs⟩
    by_cases hpx : p x = true
    · rw [List.filter_cons_of_pos hpx]
      have hnil : xs.filter p = [] := by
        rw [List.filter_eq_nil_iff]
        intro r hr hpr
        exact absurd (by rw [hp x hpx, hp r hpr]) (hx r hr)
      rw [hnil]
      simp
    · rw [List.filter_cons_of_neg (by simpa using hpx)]
      exact ih hxs

/-- C4: every request — in particular customer send-otp (an upsert keyed
on `user_id`) and admin send-otp (delete-then-insert) — preserves the
per-user uniqueness of `otp_codes` rows, so after any operation each user
has at most one unused OTP row. -/
theorem c4_at_most_one_unused_otp :
    ∀ (hmac : String → String → String) (s : DBState) (op : Op),
      uniqOtpList s.otp_codes →
      uniqOtpList (handle hmac s op).2.otp_codes ∧
      ∀ uid : String, ((handle hmac s op).2.otp_codes.filter
          (fun r => r.user_id == uid && !r.used)).length ≤ 1 := by
  intro hmac s op h
  have huniq : uniqOtpList (handle hmac s op).2.otp_codes := by
    rcases handle_otpState hmac s op with ⟨h1, -⟩ | ⟨rid, h1, -⟩ |
      ⟨uid, code, exp, h1, -⟩ | ⟨-, uid, code, exp, h1, -⟩
    · rw [h1]; exact h
    · rw [h1]; exact uniqOtpList_markUsed _ _ h
    · rw [h1]; exact uniqOtpList_adminReplace _ _ _ _ _ h
    · rw [h1]; exact uniqOtpList_upsert _ _ _ _ _ h
  refine ⟨huniq, fun uid => uniqOtpList_filter_le_one _ uid _ ?_ huniq⟩
  intro r hr
  have := (Bool.and_eq_true .. |>.mp hr).1
  simpa using this

/-- Witness for C4: a customer send-otp against a state holding OTP rows
for two distinct users. -/
theorem c4_witness :
    uniqOtpList (⟨[⟨"u1", some "a@b.co", none, none⟩], [],
        [⟨0, "u1", "111111", 1000, false⟩, ⟨1, "u2", "222222", 1000, false⟩],
        [], [], [], [], [], 1, 2, 0⟩ : DBState).otp_codes ∧
    ∀ uid : String,
      ((handle (fun _ _ => "") ⟨[⟨"u1", some "a@b.co", none, none⟩], [],
          [⟨0, "u1", "111111", 1000, false⟩, ⟨1, "u2", "222222", 1000, false⟩],
          [], [], [], [], [], 1, 2, 0⟩
        (.custSend ⟨0, 0, true, .delivered⟩ ⟨some "a@b.co", none, none⟩)).2.otp_codes.filter
        (fun r => r.user_id == uid && !r.used)).length ≤ 1 :=
  ⟨by unfold uniqOtpList; decide,
   (c4_at_most_one_unused_otp (fun _ _ => "") _
      (.custSend ⟨0, 0, true, .delivered⟩ ⟨some "a@b.co", none, none⟩)
      (by unfold uniqOtpList; decide)).2⟩

/-! ## C7 -/

theorem runState_append (hmac : String → String → String) (s : DBState)
    (t : List Op) (op : Op) :
    runState hmac s (t ++ [op]) = (handle hmac (runState hmac s t) op).2 := by
  induction t generalizing s with
  | nil => rfl
  | cons x xs ih => exact ih _

/-- C7: controllers keep no in-process state between requests: the
response and database effect of a request are a function of the current
database state and the request alone (with its clock, randomness and
external outcomes), so two histories that lead to the same database state
are indistinguishable to the next request. -/
theorem c7_stateless_determinism :
    ∀ (hmac : String → String → String) (s1 s2 : DBState)
      (t1 t2 : List Op) (op : Op),
      runState hmac s1 t1 = runState hmac s2 t2 →
      handle hmac (runState hmac s1 t1) op = handle hmac (runState hmac s2 t2) op ∧
      runState hmac s1 (t1 ++ [op]) = runState hmac s2 (t2 ++ [op]) := by
  intro hmac s1 s2 t1 t2 op h
  refine ⟨by rw [h], ?_⟩
  rw [runState_append, runState_append, h]

/-- Witness for C7: the empty history and a pure catalog read lead to the
same state, so the next request behaves identically after either. -/
theorem c7_witness :
    handle (fun _ _ => "") (runState (fun _ _ => "") emptyDB []) Op.invFeatured
      = handle (fun _ _ => "") (runState (fun _ _ => "") emptyDB [Op.invFeatured])
          Op.invFeatured ∧
    runState (fun _ _ => "") emptyDB ([] ++ [Op.invFeatured])
      = runState (fun _ _ => "") emptyDB ([Op.invFeatured] ++ [Op.invFeatured]) :=
  c7_stateless_determinism (fun _ _ => "") emptyDB emptyDB [] [Op.invFeatured]
    Op.invFeatured rfl

/-! ## C10 helper lemmas -/

theorem jsWs_of_isDigit (c : Char) (h : c.isDigit = true) : jsWs c = false := by
  unfold jsWs
  by_contra hw
  rw [Bool.not_eq_false] at hw
  simp only [Bool.or_eq_true, beq_iff_eq] at hw
  rcases hw with ((((h1 | h1) | h1) | h1) | h1) | h1 <;> subst h1 <;> simp at h

theorem dropWhile_eq_self_of_all {p : Char → Bool} (l : List Char)
    (h : ∀ c ∈ l, p c = false) : l.dropWhile p = l := by
  cases l with
  | nil => rfl
  | cons c rest =>
    rw [List.dropWhile_cons_of_neg]
    simp [h c (by simp)]

theorem jsTrim_of_digits (str : String)
    (h : ∀ c ∈ str.data, c.isDigit = true) : jsTrim str = str := by
  unfold jsTrim
  rw [dropWhile_eq_self_of_all str.data (fun c hc => jsWs_of_isDigit c (h c hc))]
  rw [dropWhile_eq_self_of_all str.data.reverse
    (fun c hc => jsWs_of_isDigit c (h c (List.mem_reverse.mp hc)))]
  rw [List.reverse_reverse]

theorem generateOTP_trim (e : Nat) : jsTrim (generateOTP e) = generateOTP e :=
  jsTrim_of_digits _ (generateOTP_digits e)

theorem generateOTP_ne_empty (e : Nat) : generateOTP e ≠ "" := by
  intro h
  have := generateOTP_length e
  rw [h] at this
  simp at this

theorem mkUserId_ne_empty (n : Nat) : mkUserId n ≠ "" := by
  intro h
  have : (mkUserId n).data = "".data := congrArg String.data h
  unfold mkUserId at this
  rw [String.data_append] at this
  simp at this

theorem mem_length_le_one_eq {α : Type} {l : List α} {a : α}
    (ha : a ∈ l) (hl : l.length ≤ 1) : l = [a] := by
  match l with
  | [] => cases ha
  | [x] =>
    rw [List.mem_singleton] at ha
    rw [ha]
  | x :: y :: rest => simp at hl

theorem upsert_fresh_row_mem (rows : List OtpRow) (freshId : Nat)
    (uid code : String) (exp : Int) :
    ∃ rid, (⟨rid, uid, code, exp, false⟩ : OtpRow)
      ∈ upsertOtpList rows freshId uid code exp := by
  unfold upsertOtpList
  split
  · rename_i hany
    rw [List.any_eq_true] at hany
    obtain ⟨r, hr, hruid⟩ := hany
    rw [beq_iff_eq] at hruid
    refine ⟨r.id, ?_⟩
    rw [List.mem_map]
    refine ⟨r, hr, ?_⟩
    rw [if_pos (by simp [hruid])]
    simp [hruid]
  · exact ⟨freshId, by simp⟩

theorem upsert_filter_unused (rows : List OtpRow) (freshId : Nat)
    (uid code : String) (exp : Int) (huniq : uniqOtpList rows) :
    ∃ rid, (upsertOtpList rows freshId uid code exp).filter
        (fun r => r.user_id == uid && !r.used) = [⟨rid, uid, code, exp, false⟩] := by
  obtain ⟨rid, hmem⟩ := upsert_fresh_row_mem rows freshId uid code exp
  refine ⟨rid, ?_⟩
  have hfmem : (⟨rid, uid, code, exp, false⟩ : OtpRow)
      ∈ (upsertOtpList rows freshId uid code exp).filter
        (fun r => r.user_id == uid && !r.used) := by
    rw [List.mem_filter]
    exact ⟨hmem, by simp⟩
  have hle := uniqOtpList_filter_le_one
    (upsertOtpList rows freshId uid code exp) uid
    (fun r => r.user_id == uid && !r.used)
    (fun r hr => by simpa using (Bool.and_eq_true .. |>.mp hr).1)
    (uniqOtpList_upsert rows freshId uid code exp huniq)
  exact mem_length_le_one_eq hfmem hle

theorem filter_id_unique_map (users : List UserRow) (u0 : UserRow)
    (hu : u0 ∈ users) (hdist : users.Pairwise (fun a b => a.id ≠ b.id))
    (f : UserRow → UserRow) (hf : ∀ x, (f x).id = x.id) :
    (users.map f).filter (fun x => x.id == u0.id) = [f u0] := by
  induction users with
  | nil => cases hu
  | cons x xs ih =>
    rcases List.pairwise_cons.mp hdist with ⟨hx, hxs⟩
    rcases List.mem_cons.mp hu with heq | hu2
    · subst heq
      simp only [List.map_cons, List.filter_cons]
      rw [if_pos (by simp [hf])]
      have hnil : (xs.map f).filter (fun x => x.id == u0.id) = [] := by
        rw [List.filter_eq_nil_iff]
        intro y hy
        rcases List.mem_map.mp hy with ⟨z, hz, rfl⟩
        simp only [beq_iff_eq, hf]
        exact fun h => absurd h.symm (hx z hz)
      rw [hnil]
    · simp only [List.map_cons, List.filter_cons]
      rw [if_neg (by simp only [beq_iff_eq, hf]; exact hx u0 hu2)]
      exact ih hu2 hxs

theorem filter_id_append_new (users : List UserRow) (newU : UserRow)
    (hnot : ∀ u ∈ users, u.id ≠ newU.id) :
    (users ++ [newU]).filter (fun x => x.id == newU.id) = [newU] := by
  rw [List.filter_append]
  have h1 : users.filter (fun x => x.id == newU.id) = [] := by
    rw [List.filter_eq_nil_iff]
    intro u hu
    simpa using hnot u hu
  rw [h1]
  simp

/-! ## C10 -/

theorem findOrCreateUser_ok (s : DBState) (req : SendReq)
    (hdist : s.users.Pairwise (fun a b => a.id ≠ b.id))
    (hne : ∀ u ∈ s.users, u.id ≠ "")
    (hfresh : ∀ u ∈ s.users, u.id ≠ mkUserId s.nextUserId) :
    ∃ user users1 nextUid,
      findOrCreateUser s req = .ok (user, users1, nextUid) ∧
      user.id ≠ "" ∧
      users1.filter (fun x => x.id == user.id) = [user] := by
  rcases hms : maybeSingle (s.users.filter (fun u =>
      (truthy req.email && u.email == req.email) ||
        (truthy req.phone && u.phone == req.phone))) with _ | _ | u
  · exact
      let newU : UserRow :=
        ⟨mkUserId s.nextUserId,
          (if truthy req.email then req.email else none),
          (if truthy req.phone then req.phone else none),
          (if truthy req.name then req.name else none)⟩
      ⟨newU, s.users ++ [newU], s.nextUserId + 1,
        by unfold findOrCreateUser; dsimp only; rw [hms],
        mkUserId_ne_empty _,
        filter_id_append_new s.users newU hfresh⟩
  · exact
      let newU : UserRow :=
        ⟨mkUserId s.nextUserId,
          (if truthy req.email then req.email else none),
          (if truthy req.phone then req.phone else none),
          (if truthy req.name then req.name else none)⟩
      ⟨newU, s.users ++ [newU], s.nextUserId + 1,
        by unfold findOrCreateUser; dsimp only; rw [hms],
        mkUserId_ne_empty _,
        filter_id_append_new s.users newU hfresh⟩
  · have humem : u ∈ s.users := (List.mem_filter.mp (maybeSingle_one_mem hms)).1
    have hfid : ∀ x, ((fun x : UserRow =>
        if x.id == u.id then
          { x with full_name := if truthy req.name then req.name else u.full_name }
        else x) x).id = x.id := by
      intro x
      by_cases h : x.id == u.id <;> simp [h]
    have hfilter := filter_id_unique_map s.users u humem hdist _ hfid
    refine ⟨(fun x : UserRow =>
        if x.id == u.id then
          { x with full_name := if truthy req.name then req.name else u.full_name }
        else x) u,
      s.users.map (fun x : UserRow =>
        if x.id == u.id then
          { x with full_name := if truthy req.name then req.name else u.full_name }
        else x),
      s.nextUserId, ?_, ?_, ?_⟩
    · unfold findOrCreateUser
      dsimp only
      rw [hms]
      dsimp only
      rw [hfilter]
      rfl
    · rw [hfid u]
      exact hne u humem
    · rw [hfid u]
      exact hfilter

/-- C10: when the customer send-otp e-mail step fails after the OTP
upsert, the handler answers 500 with an e-mail-delivery error, yet the
fresh OTP row is stored unused with the full 10-minute window, and a
later verify-otp with that code for that user succeeds any time before
the expiry. -/
theorem c10_send_otp_email_failure :
    ∀ (s : DBState) (env : SendEnv) (req : SendReq) (err : String),
      truthy req.email = true →
      validEmail (req.email.getD "") = true →
      env.apiKeyPresent = true →
      env.emailOutcome = .failed err →
      s.users.Pairwise (fun a b => a.id ≠ b.id) →
      (∀ u ∈ s.users, u.id ≠ "") →
      (∀ u ∈ s.users, u.id ≠ mkUserId s.nextUserId) →
      uniqOtpList s.otp_codes →
      (sendOTP s env req).1 = .err500 ("Email delivery failed: " ++ err) ∧
      ∃ uid rid,
        (⟨rid, uid, generateOTP env.rand, env.now + otpWindowMs, false⟩ : OtpRow)
          ∈ (sendOTP s env req).2.otp_codes ∧
        ∀ now2 : Int, now2 ≤ env.now + otpWindowMs →
          (verifyOTP (sendOTP s env req).2 now2
            ⟨none, some uid, some (generateOTP env.rand)⟩).1.status = 200 := by
  intro s env req err hemail hvalid hkey hout hdist hne hfresh huniq
  obtain ⟨user, users1, nextUid, hfc, huid_ne, hufilter⟩ :=
    findOrCreateUser_ok s req hdist hne hfresh
  have hc1 : (!truthy req.email && !truthy req.phone) = false := by simp [hemail]
  have hc2 : (truthy req.email && !validEmail (req.email.getD "")) = false := by
    simp [hvalid]
  have hsend : sendOTP s env req
      = (.err500 ("Email delivery failed: " ++ err),
        upsertOtp { s with users := users1, nextUserId := nextUid } user.id
          (generateOTP env.rand) (env.now + otpWindowMs)) := by
    unfold sendOTP
    rw [hc1, hc2, hfc]
    dsimp only
    rw [hemail, hkey, hout]
    rfl
  rw [hsend]
  refine ⟨rfl, user.id, ?_⟩
  have hotp : (upsertOtp { s with users := users1, nextUserId := nextUid } user.id
      (generateOTP env.rand) (env.now + otpWindowMs)).otp_codes
      = upsertOtpList s.otp_codes s.nextOtpId user.id (generateOTP env.rand)
          (env.now + otpWindowMs) := rfl
  obtain ⟨rid, hfil⟩ := upsert_filter_unused s.otp_codes s.nextOtpId user.id
    (generateOTP env.rand) (env.now + otpWindowMs) huniq
  refine ⟨rid, ?_, ?_⟩
  · rw [hotp]
    exact List.mem_of_mem_filter (by rw [hfil]; exact List.mem_singleton_self _)
  · intro now2 hnow2
    have hval : custValidates ⟨none, some user.id, some (generateOTP env.rand)⟩
        = true := by
      unfold custValidates
      have h1 : truthy (some (generateOTP env.rand)) = true := by
        simpa [truthy] using generateOTP_ne_empty env.rand
      have h2 : truthy (some user.id) = true := by
        simpa [truthy] using huid_ne
      rw [show (some (generateOTP env.rand)).getD "" = generateOTP env.rand from rfl,
        generateOTP_trim, generateOTP_length, h1, h2]
      rfl
    have hres : resolveUidCust
        (upsertOtp { s with users := users1, nextUserId := nextUid } user.id
          (generateOTP env.rand) (env.now + otpWindowMs))
        ⟨none, some user.id, some (generateOTP env.rand)⟩ = some user.id := by
      unfold resolveUidCust
      rw [if_pos (by simpa [truthy] using huid_ne)]
    rw [verifyOTP_resolved _ now2 _ user.id hval hres]
    have hchk : checkOtp
        (upsertOtp { s with users := users1, nextUserId := nextUid } user.id
          (generateOTP env.rand) (env.now + otpWindowMs))
        now2 user.id ((some (generateOTP env.rand)).getD "")
        = .accept ⟨rid, user.id, generateOTP env.rand,
            env.now + otpWindowMs, false⟩ := by
      unfold checkOtp
      rw [show (upsertOtp { s with users := users1, nextUserId := nextUid } user.id
          (generateOTP env.rand) (env.now + otpWindowMs)).otp_codes.filter
            (fun r => r.user_id == user.id && !r.used)
          = [⟨rid, user.id, generateOTP env.rand, env.now + otpWindowMs, false⟩]
          from hfil]
      show (if (env.now + otpWindowMs : Int) < now2 then OtpCheck.expired
        else if jsTrim (generateOTP env.rand)
            != jsTrim ((some (generateOTP env.rand)).getD "") then OtpCheck.mismatch
        else _) = _
      rw [if_neg (by omega)]
      rw [if_neg (by simp)]
    rw [hchk]
    dsimp only
    have husers : (markUsed
        (upsertOtp { s with users := users1, nextUserId := nextUid } user.id
          (generateOTP env.rand) (env.now + otpWindowMs)) rid).users
        = users1 := rfl
    rw [show single ((markUsed
        (upsertOtp { s with users := users1, nextUserId := nextUid } user.id
          (generateOTP env.rand) (env.now + otpWindowMs)) rid).users.filter
        (fun x => x.id == user.id)) = .one user from by rw [husers, hufilter]; rfl]
    rfl

/-- Witness for C10: a failed delivery on the empty database, verified
one millisecond later. -/
theorem c10_witness :
    (sendOTP emptyDB ⟨11111, 0, true, .failed "boom"⟩
        ⟨some "a@b.co", none, none⟩).1
      = .err500 ("Email delivery failed: " ++ "boom") ∧
    ∃ uid rid,
      (⟨rid, uid, generateOTP 11111, (0 : Int) + otpWindowMs, false⟩ : OtpRow)
        ∈ (sendOTP emptyDB ⟨11111, 0, true, .failed "boom"⟩
            ⟨some "a@b.co", none, none⟩).2.otp_codes ∧
      ∀ now2 : Int, now2 ≤ (0 : Int) + otpWindowMs →
        (verifyOTP (sendOTP emptyDB ⟨11111, 0, true, .failed "boom"⟩
            ⟨some "a@b.co", none, none⟩).2 now2
          ⟨none, some uid, some (generateOTP 11111)⟩).1.status = 200 :=
  c10_send_otp_email_failure emptyDB ⟨11111, 0, true, .failed "boom"⟩
    ⟨some "a@b.co", none, none⟩ "boom" (by decide) (by decide) rfl rfl
    (by decide) (by intro u hu; cases hu) (by intro u hu; cases hu)
    (by unfold uniqOtpList; decide)

/-! ## C3: acceptance of an OTP row by a verification request -/

/-- The row id `verifyOTP` accepts (reaches its mark-used step for), if
any: the guards mirror the handler exactly. -/
def custVerifyAccepts (s : DBState) (now : Int) (req : VerifyReq) : Option Nat :=
  if !truthy req.otp || (jsTrim (req.otp.getD "")).data.length != 6 then none
  else if !truthy req.userId && !truthy req.email then none
  else
    match resolveUidCust s req with
    | none => none
    | some uid =>
      match checkOtp s now uid (req.otp.getD "") with
      | .accept r0 => some r0.id
      | _ => none

/-- The row id `adminVerifyOTP` accepts, if any. -/
def adminVerifyAccepts (s : DBState) (now : Int) (req : AVerifyReq) : Option Nat :=
  if !truthy req.userId || !truthy req.otp then none
  else if (jsTrim (req.otp.getD "")).data.length != 6 then none
  else if req.userId.getD "" == "invalid" then none
  else
    match checkOtp s now (req.userId.getD "") (req.otp.getD "") with
    | .accept r0 => some r0.id
    | _ => none

/-- Whether a request gets OTP row `rid` accepted. -/
def opAccepts (s : DBState) (op : Op) (rid : Nat) : Bool :=
  match op with
  | .custVerify now req => custVerifyAccepts s now req == some rid
  | .adminVerify now req => adminVerifyAccepts s now req == some rid
  | _ => false

theorem checkOtp_accept_mem (s : DBState) (now : Int) (uid otp : String)
    (r0 : OtpRow) (h : checkOtp s now uid otp = .accept r0) :
    r0 ∈ s.otp_codes ∧ r0.used = false := by
  unfold checkOtp at h
  rcases hl : latestOtp (s.otp_codes.filter (fun r => r.user_id == uid && !r.used))
      with _ | r1
  · rw [hl] at h
    cases h
  · rw [hl] at h
    dsimp only at h
    have hmem := latestOtp_some_mem hl
    by_cases he : r1.expires_at < now
    · rw [if_pos he] at h
      cases h
    · rw [if_neg he] at h
      by_cases hm : (jsTrim r1.code != jsTrim otp) = true
      · rw [if_pos hm] at h
        cases h
      · rw [if_neg hm] at h
        have : r1 = r0 := by injection h
        subst this
        have hf := List.mem_filter.mp hmem
        refine ⟨hf.1, ?_⟩
        have := (Bool.and_eq_true .. |>.mp hf.2).2
        simpa using this

theorem custVerifyAccepts_spec (s : DBState) (now : Int) (req : VerifyReq)
    (rid : Nat) (h : custVerifyAccepts s now req = some rid) :
    (∃ r0, r0 ∈ s.otp_codes ∧ r0.id = rid ∧ r0.used = false) ∧
    (verifyOTP s now req).2 = markUsed s rid := by
  unfold custVerifyAccepts at h
  by_cases hb1 : (!truthy req.otp
      || (jsTrim (req.otp.getD "")).data.length != 6) = true
  · rw [if_pos hb1] at h
    cases h
  rw [if_neg hb1] at h
  by_cases hb2 : (!truthy req.userId && !truthy req.email) = true
  · rw [if_pos hb2] at h
    cases h
  rw [if_neg hb2] at h
  rcases hr : resolveUidCust s req with _ | uid
  · rw [hr] at h
    cases h
  rw [hr] at h
  dsimp only at h
  rcases hc : checkOtp s now uid (req.otp.getD "") with _ | _ | _ | r0 <;> rw [hc] at h
  · cases h
  · cases h
  · cases h
  have hrid : r0.id = rid := by injection h
  obtain ⟨hmem, hunused⟩ := checkOtp_accept_mem s now uid _ r0 hc
  refine ⟨⟨r0, hmem, hrid, hunused⟩, ?_⟩
  rw [Bool.not_eq_true] at hb1 hb2
  unfold verifyOTP
  simp only [hb1, hb2, Bool.false_eq_true, if_false, hr, hc]
  rw [← hrid]
  rcases hs : single ((markUsed s r0.id).users.filter (fun u => u.id == uid))
      with _ | _ | u <;> rw [hs]

theorem adminVerifyAccepts_spec (s : DBState) (now : Int) (req : AVerifyReq)
    (rid : Nat) (h : adminVerifyAccepts s now req = some rid) :
    (∃ r0, r0 ∈ s.otp_codes ∧ r0.id = rid ∧ r0.used = false) ∧
    (adminVerifyOTP s now req).2 = markUsed s rid := by
  unfold adminVerifyAccepts at h
  by_cases hb1 : (!truthy req.userId || !truthy req.otp) = true
  · rw [if_pos hb1] at h
    cases h
  rw [if_neg hb1] at h
  by_cases hb2 : ((jsTrim (req.otp.getD "")).data.length != 6) = true
  · rw [if_pos hb2] at h
    cases h
  rw [if_neg hb2] at h
  by_cases hb3 : (req.userId.getD "" == "invalid") = true
  · rw [if_pos hb3] at h
    cases h
  rw [if_neg hb3] at h
  rcases hc : checkOtp s now (req.userId.getD "") (req.otp.getD "")
      with _ | _ | _ | r0 <;> rw [hc] at h
  · cases h
  · cases h
  · cases h
  have hrid : r0.id = rid := by injection h
  obtain ⟨hmem, hunused⟩ := checkOtp_accept_mem s now _ _ r0 hc
  refine ⟨⟨r0, hmem, hrid, hunused⟩, ?_⟩
  rw [Bool.not_eq_true] at hb1 hb2 hb3
  unfold adminVerifyOTP
  simp only [hb1, hb2, hb3, Bool.false_eq_true, if_false, hc]
  rw [← hrid]
  rcases hs : maybeSingle ((markUsed s r0.id).admin_users.filter
      (fun a => a.id == req.userId.getD "")) with _ | _ | a <;> rw [hs]

theorem opAccepts_spec (hmac : String → String → String) (s : DBState)
    (op : Op) (rid : Nat) (h : opAccepts s op rid = true) :
    (∃ r0, r0 ∈ s.otp_codes ∧ r0.id = rid ∧ r0.used = false) ∧
    (handle hmac s op).2.otp_codes = markUsedList s.otp_codes rid := by
  cases op with
  | custVerify now req =>
    have heq : custVerifyAccepts s now req = some rid := by
      simpa [opAccepts] using h
    obtain ⟨hex, hst⟩ := custVerifyAccepts_spec s now req rid heq
    exact ⟨hex, by show (verifyOTP s now req).2.otp_codes = _; rw [hst]; rfl⟩
  | adminVerify now req =>
    have heq : adminVerifyAccepts s now req = some rid := by
      simpa [opAccepts] using h
    obtain ⟨hex, hst⟩ := adminVerifyAccepts_spec s now req rid heq
    exact ⟨hex, by show (adminVerifyOTP s now req).2.otp_codes = _; rw [hst]; rfl⟩
  | custSend env req => simp [opAccepts] at h
  | adminSend env req => simp [opAccepts] at h
  | payVerify k req => simp [opAccepts] at h
  | invList q => simp [opAccepts] at h
  | invCategory c => simp [opAccepts] at h
  | invSlug slug => simp [opAccepts] at h
  | invFeatured => simp [opAccepts] at h

/-! ## C3: consumption invariants -/

/-- Every `otp_codes` row id is below the fresh-id counter (ids are
database-generated and never reused). -/
def idsBounded (s : DBState) : Prop := ∀ r ∈ s.otp_codes, r.id < s.nextOtpId

/-- Row id `rid` is consumed: every `otp_codes` row carrying it is marked
used. -/
def deadRow (l : List OtpRow) (rid : Nat) : Prop :=
  ∀ r ∈ l, r.id = rid → r.used = true

theorem idsBounded_step (hmac : String → String → String) (s : DBState)
    (op : Op) (h : idsBounded s) : idsBounded (handle hmac s op).2 := by
  rcases handle_otpState hmac s op with ⟨h1, h2⟩ | ⟨rid, h1, h2⟩ |
    ⟨uid, code, exp, h1, h2⟩ | ⟨-, uid, code, exp, h1, h2⟩
  · intro r hr
    rw [h1] at hr
    rw [h2]
    exact h r hr
  · intro r hr
    rw [h1] at hr
    rw [h2]
    rcases List.mem_map.mp hr with ⟨x, hx, rfl⟩
    by_cases hb : (x.id == rid) = true <;> simp [hb] <;> exact h x hx
  · intro r hr
    rw [h1] at hr
    rw [h2]
    unfold adminReplaceOtp at hr
    rcases List.mem_append.mp hr with hr | hr
    · exact Nat.lt_succ_of_lt (h r (List.mem_of_mem_filter hr))
    · rw [List.mem_singleton] at hr
      subst hr
      exact Nat.lt_succ_self _
  · intro r hr
    rw [h1] at hr
    rw [h2]
    unfold upsertOtpList at hr
    split at hr
    · rcases List.mem_map.mp hr with ⟨x, hx, rfl⟩
      by_cases hb : (x.user_id == uid) = true <;> simp [hb] <;>
        exact Nat.lt_succ_of_lt (h x hx)
    · rcases List.mem_append.mp hr with hr | hr
      · exact Nat.lt_succ_of_lt (h r hr)
      · rw [List.mem_singleton] at hr
        subst hr
        exact Nat.lt_succ_self _

theorem nextOtp_mono (hmac : String → String → String) (s : DBState) (op : Op) :
    s.nextOtpId ≤ (handle hmac s op).2.nextOtpId := by
  rcases handle_otpState hmac s op with ⟨-, h2⟩ | ⟨_, -, h2⟩ |
    ⟨_, _, _, -, h2⟩ | ⟨-, _, _, _, -, h2⟩ <;> rw [h2] <;> omega

theorem deadRow_step (hmac : String → String → String) (s : DBState) (op : Op)
    (rid : Nat) (hns : op.isCustSend = false) (hlt : rid < s.nextOtpId)
    (hd : deadRow s.otp_codes rid) : deadRow (handle hmac s op).2.otp_codes rid := by
  rcases handle_otpState hmac s op with ⟨h1, -⟩ | ⟨rid2, h1, -⟩ |
    ⟨uid, code, exp, h1, -⟩ | ⟨hcs, -⟩
  · rw [h1]
    exact hd
  · rw [h1]
    intro r hr hid
    rcases List.mem_map.mp hr with ⟨x, hx, rfl⟩
    by_cases hb : (x.id == rid2) = true
    · simp [hb]
    · rw [Bool.not_eq_true] at hb
      simp only [hb, Bool.false_eq_true, if_false] at hid ⊢
      exact hd x hx hid
  · rw [h1]
    intro r hr hid
    unfold adminReplaceOtp at hr
    rcases List.mem_append.mp hr with hr | hr
    · exact hd r (List.mem_of_mem_filter hr) hid
    · rw [List.mem_singleton] at hr
      subst hr
      simp only at hid
      omega
  · rw [hcs] at hns
    cases hns

theorem runState_app (hmac : String → String → String) (s : DBState)
    (t1 t2 : List Op) :
    runState hmac s (t1 ++ t2) = runState hmac (runState hmac s t1) t2 := by
  induction t1 generalizing s with
  | nil => rfl
  | cons op rest ih => exact ih _

theorem runState_bounded (hmac : String → String → String) (t : List Op)
    (s : DBState) (h : idsBounded s) : idsBounded (runState hmac s t) := by
  induction t generalizing s with
  | nil => exact h
  | cons op rest ih => exact ih _ (idsBounded_step hmac s op h)

theorem runState_dead (hmac : String → String → String) (t : List Op)
    (s : DBState) (rid : Nat) (hall : ∀ op ∈ t, op.isCustSend = false)
    (hlt : rid < s.nextOtpId) (hd : deadRow s.otp_codes rid) :
    deadRow (runState hmac s t).otp_codes rid := by
  induction t generalizing s with
  | nil => exact hd
  | cons op rest ih =>
    exact ih _ (fun o ho => hall o (List.mem_cons_of_mem _ ho))
      (lt_of_lt_of_le hlt (nextOtp_mono hmac s op))
      (deadRow_step hmac s op rid (hall op (List.mem_cons_self _ _)) hlt hd)

theorem accept_post_dead (hmac : String → String → String) (s : DBState)
    (op : Op) (rid : Nat) (h : opAccepts s op rid = true) :
    deadRow (handle hmac s op).2.otp_codes rid := by
  obtain ⟨-, hst⟩ := opAccepts_spec hmac s op rid h
  rw [hst]
  intro r hr hid
  rcases List.mem_map.mp hr with ⟨x, hx, rfl⟩
  by_cases hb : (x.id == rid) = true
  · simp [hb]
  · rw [Bool.not_eq_true] at hb
    simp only [hb, Bool.false_eq_true, if_false] at hid
    exact absurd hid (by simpa using hb)

/-- Counterexample to C3 as stated: a trace on which OTP row id 0 is
accepted (and marked used) by a verify request, then — after a later
customer send-otp whose upsert re-arms the very same row with the same
code "111111" (entropy 11111) — accepted a second time. -/
def c3S : DBState :=
  ⟨[⟨"u0", some "a@b.co", none, none⟩], [],
    [⟨0, "u0", "111111", 600000, false⟩], [], [], [], [], [], 1, 1, 0⟩

theorem c3_counterexample :
    opAccepts (runState (fun _ _ => "") c3S [])
      (.custVerify 5 ⟨none, some "u0", some "111111"⟩) 0 = true ∧
    opAccepts (runState (fun _ _ => "") c3S
        ([] ++ Op.custVerify 5 ⟨none, some "u0", some "111111"⟩ ::
          [Op.custSend ⟨11111, 0, true, .delivered⟩ ⟨some "a@b.co", none, none⟩]))
      (.custVerify 6 ⟨none, some "u0", some "111111"⟩) 0 = true := by
  exact ⟨by decide, by decide⟩

/-- C3 (amended): once a verification request gets an OTP row accepted it
is marked used, and no later sequence of requests that contains no
customer send-otp can get the same row accepted a second time — only the
customer send-otp upsert (keyed on `user_id`, resetting `used` on the
same row) can re-arm it; admin send-otp inserts under a fresh id and all
other requests leave consumed rows consumed. -/
theorem c3_otp_consumed :
    ∀ (hmac : String → String → String) (s0 : DBState)
      (pre mid : List Op) (opA opB : Op) (rid : Nat),
      idsBounded s0 →
      opAccepts (runState hmac s0 pre) opA rid = true →
      opAccepts (runState hmac s0 (pre ++ opA :: mid)) opB rid = true →
      ∃ op ∈ mid, op.isCustSend = true := by
  intro hmac s0 pre mid opA opB rid hb hA hB
  by_contra hno
  push_neg at hno
  have hall : ∀ op ∈ mid, op.isCustSend = false := by
    intro op hop
    have := hno op hop
    simpa using this
  have hsA : idsBounded (runState hmac s0 pre) := runState_bounded hmac pre s0 hb
  obtain ⟨⟨r0, hmem, hid, -⟩, -⟩ := opAccepts_spec hmac _ opA rid hA
  have hlt : rid < (runState hmac s0 pre).nextOtpId := hid ▸ hsA r0 hmem
  have hdead1 := accept_post_dead hmac _ opA rid hA
  have hlt1 : rid < (handle hmac (runState hmac s0 pre) opA).2.nextOtpId :=
    lt_of_lt_of_le hlt (nextOtp_mono hmac _ opA)
  have hrw : runState hmac s0 (pre ++ opA :: mid)
      = runState hmac (handle hmac (runState hmac s0 pre) opA).2 mid := by
    rw [runState_app]
    rfl
  have hdeadB := runState_dead hmac mid _ rid hall hlt1 hdead1
  obtain ⟨⟨r1, hmem1, hid1, hunused1⟩, -⟩ := opAccepts_spec hmac _ opB rid hB
  rw [hrw] at hmem1
  have := hdeadB r1 hmem1 hid1
  rw [hunused1] at this
  cases this

/-- Witness for C3 (amended): on the counterexample trace the theorem
pinpoints the intervening customer send-otp. -/
theorem c3_witness :
    ∃ op ∈ [Op.custSend ⟨11111, 0, true, .delivered⟩ ⟨some "a@b.co", none, none⟩],
      op.isCustSend = true :=
  c3_otp_consumed (fun _ _ => "") c3S []
    [Op.custSend ⟨11111, 0, true, .delivered⟩ ⟨some "a@b.co", none, none⟩]
    (.custVerify 5 ⟨none, some "u0", some "111111"⟩)
    (.custVerify 6 ⟨none, some "u0", some "111111"⟩) 0
    (by unfold idsBounded; decide) (by decide) (by decide)

end BigDawgs
